import Mathlib

/-!
Shallow embedding of the camera batch firmware updater
(`CamUpdatePageContent`, source file part_000, with the earlier concurrent
prober from part_002) and proofs checking the specification claims.

Conventions of the embedding:
* The React state of each camera row (`CameraEntry`) is a structure; the
  single writer `updateCameraEntry` is the map over the entry list, exactly
  as in the source.
* Network effects are modelled by explicit outcome values supplied by an
  environment: `HttpOutcome` for a `fetch`, `UploadOutcome` plus a list of
  byte-progress events for the `XMLHttpRequest` upload, and a list of
  `PollOutcome` for the successive ticks of the install poll interval.
* The update driver for one device is a pure function from the entry and
  its environment to a `DriverState` carrying the final entry, the list of
  network calls made, the sequence of `updateCameraEntry` patches issued,
  and the resulting trace of entry states.  Since every entry id is a
  fresh UUID, a driver only ever touches its own entry; a bridge theorem
  (`applyOps_batchOps`) shows that replaying the issued patches through
  `updateCameraEntry` on the shared list agrees with the per-entry model.
-/

namespace CamUpdate

/-- The `CameraUpdateStatus` union type of the source. -/
inductive CameraUpdateStatus where
  | idle
  | connecting
  | connected
  | failed_connection
  | pending_update
  | uploading
  | installing
  | update_complete
  | update_failed
deriving DecidableEq, Repr

/-- The `CameraEntry` interface of the source. -/
structure CameraEntry where
  id : String
  ip : String
  status : CameraUpdateStatus
  progress : Nat
  message : String
deriving DecidableEq, Repr

/-- A `Partial<CameraEntry>` value: the `updates` argument of
`updateCameraEntry`.  A field that is `none` is absent from the object
literal and left unchanged by the spread `{ ...entry, ...updates }`. -/
structure EntryUpdates where
  id : Option String := none
  ip : Option String := none
  status : Option CameraUpdateStatus := none
  progress : Option Nat := none
  message : Option String := none
deriving DecidableEq, Repr

/-- The spread `{ ...entry, ...updates }`. -/
def applyUpdates (e : CameraEntry) (u : EntryUpdates) : CameraEntry :=
  { id := u.id.getD e.id
    ip := u.ip.getD e.ip
    status := u.status.getD e.status
    progress := u.progress.getD e.progress
    message := u.message.getD e.message }

/-- `updateCameraEntry(id, updates)` from the source: map over the entry
list, merging `updates` into the entry whose id matches. -/
def updateCameraEntry (entries : List CameraEntry) (targetId : String)
    (u : EntryUpdates) : List CameraEntry :=
  entries.map fun e => if e.id = targetId then applyUpdates e u else e

/-- `res.ok` of the Fetch API: HTTP status in the 2xx range. -/
def resOk (s : Nat) : Bool := 200 ≤ s && s ≤ 299

/-- `String.prototype.trim()` on the character list: drop whitespace from
both ends. -/
def trimList (l : List Char) : List Char :=
  ((l.dropWhile Char.isWhitespace).reverse.dropWhile Char.isWhitespace).reverse

/-- The trimmed ip of an entry, as a character list. -/
def trimmedIp (ip : String) : List Char := trimList ip.data

/-- Split a character list at every dot (the groups of the regex). -/
def splitDots : List Char → List (List Char)
  | [] => [[]]
  | c :: rest =>
      let r := splitDots rest
      if c = '.' then [] :: r else (c :: r.headI) :: r.tail

/-- One group of the regex `\d{1,3}`: one to three decimal digits. -/
def isIpv4Chunk (p : List Char) : Bool :=
  1 ≤ p.length && p.length ≤ 3 && p.all Char.isDigit

/-- The strict IPv4 syntax regex of the source,
`^\d{1,3}(\.\d{1,3}){3}$`: exactly four dot-separated groups of one to
three digits. -/
def isIpv4Format (l : List Char) : Bool :=
  let parts := splitDots l
  parts.length = 4 && parts.all isIpv4Chunk

/-- The validity guard of `handleCheckAllConnections`
(`entry.ip.trim()` truthy and the regex matches the trimmed ip). -/
def hasValidIp (ip : String) : Bool :=
  !(trimmedIp ip = []) && isIpv4Format (trimmedIp ip)

/-- Outcome of one `fetch` call as seen by the caller. -/
inductive HttpOutcome where
  | response (status : Nat)
  | timeout
  | netError
deriving DecidableEq, Repr

/-- The connection-check verdict of `handleCheckAllConnections` as a
function of the HTTP outcome of the GET to the status endpoint
(source part_000 lines 124-141): `res.ok || res.status === 404` is
connected, any other response is a failed connection with the status code
in the message, an abort (timeout) or other network error is a failed
connection with the error class in the message. -/
def checkConnectionVerdict (o : HttpOutcome) : CameraUpdateStatus × String :=
  match o with
  | .response s =>
      if resOk s || s == 404 then
        (.connected, "Reachable and ready.")
      else
        (.failed_connection, "Connection error (HTTP " ++ toString s ++ ")")
  | .timeout => (.failed_connection, "Connection timed out.")
  | .netError => (.failed_connection, "Network error or CORS. Check console.")

/-- A network call made by the component. -/
inductive NetworkCall where
  | getStatus (ip : String)
  | postUpload (ip : String)
  | postStart (ip : String)
deriving DecidableEq, Repr

/-- The per-entry body of the `handleCheckAllConnections` loop: an entry
whose ip fails the trimmed-regex guard is marked `failed_connection` with
message "Invalid IP format." and no fetch is made; otherwise one GET to
the status endpoint is made and the verdict recorded. -/
def checkConnectionEntry (e : CameraEntry) (o : HttpOutcome) :
    CameraEntry × List NetworkCall :=
  if hasValidIp e.ip then
    let v := checkConnectionVerdict o
    ({ e with status := v.1, message := v.2 }, [.getStatus e.ip])
  else
    ({ e with status := .failed_connection, message := "Invalid IP format." }, [])

/-! ### Timing model of the connectivity-check phase

Each probe has an environment-supplied raw duration in milliseconds; the
AbortController caps it at the 5000 ms timeout.  `handleConnectToCameras`
(source part_002) starts every probe at once and joins with
`Promise.allSettled`, so a probe result is available at its own effective
duration and the phase ends at the maximum.  `handleCheckAllConnections`
(source part_000) awaits each probe inside a `for` loop, so a probe only
starts after all earlier ones finished and the phase lasts the sum. -/

/-- The 5-second per-probe timeout installed via `setTimeout`/abort. -/
def probeTimeoutMs : Nat := 5000

/-- Duration of one probe: the raw duration capped by the abort timer. -/
def effectiveProbeDuration (d : Nat) : Nat := min d probeTimeoutMs

/-- part_002 `handleConnectToCameras`: time at which the probe with raw
duration `d` settles (all probes start at time 0). -/
def concurrentResultTime (d : Nat) : Nat := effectiveProbeDuration d

/-- part_002: the whole probe phase ends when `Promise.allSettled`
resolves, at the maximum of the effective durations. -/
def concurrentProbePhaseDuration (ds : List Nat) : Nat :=
  (ds.map effectiveProbeDuration).foldr max 0

/-- part_000 `handleCheckAllConnections`: time at which the result of the
probe at index `i` becomes available (every earlier probe must finish
first, then this probe runs). -/
def sequentialResultTime (ds : List Nat) (i : Nat) : Nat :=
  ((ds.take (i + 1)).map effectiveProbeDuration).sum

/-- part_000: the probe phase lasts the sum of the effective durations. -/
def sequentialProbePhaseDuration (ds : List Nat) : Nat :=
  (ds.map effectiveProbeDuration).sum

example : sequentialProbePhaseDuration [6000, 6000, 6000] = 15000 := by decide
example : concurrentProbePhaseDuration [6000, 6000, 6000] = 5000 := by decide
example : hasValidIp " 192.168.1.100 " = true := by decide
example : hasValidIp "192.168.1" = false := by decide
example : hasValidIp "" = false := by decide

/-! ### The update driver (`handleStartAllUpdates` and its helpers) -/

/-- Outcome of the `XMLHttpRequest` firmware upload: `onload` with the
final status and `responseText`, or `onerror`, `onabort`, `ontimeout`. -/
inductive UploadOutcome where
  | loaded (status : Nat) (responseText : String)
  | netError
  | aborted
  | timedOut
deriving DecidableEq, Repr

/-- Environment of one upload: the `lengthComputable` byte-progress
events `(event.loaded, event.total)` delivered to `xhr.upload.onprogress`
before the request settles, and how the request settles. -/
structure UploadEnv where
  events : List (Nat × Nat)
  outcome : UploadOutcome
deriving DecidableEq, Repr

/-- `Math.round((event.loaded / event.total) * 100)`: rounding half up,
for `total > 0` this is `(200 * loaded + total) / (2 * total)` in integer
division. -/
def uploadPct (loadedBytes total : Nat) : Nat :=
  (200 * loadedBytes + total) / (2 * total)

/-- The install-status JSON body of the poll endpoint
(`InstallStatusResp.status` in the source). -/
inductive InstallPhase where
  | started
  | in_progress
  | finished
  | reboot_required
  | error
deriving DecidableEq, Repr

/-- How `Status: ${data.status}` prints the phase. -/
def InstallPhase.asString : InstallPhase → String
  | .started => "started"
  | .in_progress => "in_progress"
  | .finished => "finished"
  | .reboot_required => "reboot_required"
  | .error => "error"

/-- The `InstallStatusResp` interface of the source: `message` and
`progress` are optional JSON fields. -/
structure InstallStatusResp where
  status : InstallPhase
  message : Option String := none
  progress : Option Nat := none
deriving DecidableEq, Repr

/-- Outcome of one poll tick: a delivered response with its HTTP status
and (when parseable) body, or a network/json failure caught by the
`catch` of the tick. -/
inductive PollOutcome where
  | reply (httpStatus : Nat) (body : InstallStatusResp)
  | netError
deriving DecidableEq, Repr

/-- The JavaScript `a || b` fallback on an optional string: `b` when the
field is absent or the empty string (falsy). -/
def jsOrElse (s : Option String) (d : String) : String :=
  match s with
  | none => d
  | some t => if t = "" then d else t

/-- State threaded through one device run of the update driver: the
current entry (the single-writer store projected to this entry id), the
network calls made so far, the `updateCameraEntry` patches issued so far,
and the resulting successive entry states. -/
structure DriverState where
  entry : CameraEntry
  calls : List NetworkCall
  ops : List EntryUpdates
  trace : List CameraEntry
deriving DecidableEq, Repr

/-- The initial driver state for an entry: nothing done yet. -/
def DriverState.init (e : CameraEntry) : DriverState :=
  { entry := e, calls := [], ops := [], trace := [] }

/-- One `updateCameraEntry(entry.id, u)` call issued by the driver. -/
def pushUpdate (st : DriverState) (u : EntryUpdates) : DriverState :=
  let e := applyUpdates st.entry u
  { st with entry := e, ops := st.ops ++ [u], trace := st.trace ++ [e] }

/-- Record one network call. -/
def addCall (st : DriverState) (c : NetworkCall) : DriverState :=
  { st with calls := st.calls ++ [c] }

/-- Replay the byte-progress events: each one issues an
`updateCameraEntry` with the rounded percentage. -/
def applyUploadEvents (st : DriverState) : List (Nat × Nat) → DriverState
  | [] => st
  | ev :: rest =>
      applyUploadEvents
        (pushUpdate st
          { progress := some (uploadPct ev.1 ev.2)
            message := some ("Uploading: " ++ toString (uploadPct ev.1 ev.2) ++ "%") })
        rest

/-- `uploadFirmware(entryId, ip, file)` (source part_000 lines 204-243):
POST to the upload endpoint, report byte progress, then settle.  Only
`xhr.status === 200` resolves `true`; any other load status, a network
error, an abort or a timeout marks the entry `update_failed` with
progress 0 and resolves `false`. -/
def uploadFirmware (ip : String) (env : UploadEnv) (st : DriverState) :
    DriverState × Bool :=
  let st1 := applyUploadEvents (addCall st (.postUpload ip)) env.events
  match env.outcome with
  | .loaded s txt =>
      if s = 200 then
        (pushUpdate st1
          { progress := some 100
            message := some "Upload complete. Preparing to install." }, true)
      else
        (pushUpdate st1
          { status := some .update_failed, progress := some 0
            message := some ("Upload failed (HTTP " ++ toString s ++ ": "
              ++ (if txt = "" then "Server error" else txt) ++ ")") }, false)
  | .netError =>
      (pushUpdate st1
        { status := some .update_failed, progress := some 0
          message := some "Network error during upload. Check CORS and camera connectivity." },
       false)
  | .aborted =>
      (pushUpdate st1
        { status := some .update_failed, progress := some 0
          message := some "Upload aborted." }, false)
  | .timedOut =>
      (pushUpdate st1
        { status := some .update_failed, progress := some 0
          message := some "Upload timed out." }, false)

/-- `startCameraInstall(entryId, ip, filename)` (source part_000 lines
245-265): POST the filename to the start endpoint; `response.ok` succeeds,
any other response marks `update_failed` with the response text, a thrown
network error marks `update_failed` with the CORS message. -/
def startCameraInstall (ip : String) (o : HttpOutcome) (errorText : String)
    (st : DriverState) : DriverState × Bool :=
  let st1 := addCall st (.postStart ip)
  match o with
  | .response s =>
      if resOk s then
        (pushUpdate st1 { message := some "Installation process initiated." }, true)
      else
        (pushUpdate st1
          { status := some .update_failed
            message := some ("Failed to start install (HTTP " ++ toString s ++ "): "
              ++ errorText) }, false)
  | .timeout =>
      (pushUpdate st1
        { status := some .update_failed
          message := some "Network error starting install. Check CORS." }, false)
  | .netError =>
      (pushUpdate st1
        { status := some .update_failed
          message := some "Network error starting install. Check CORS." }, false)

/-- The guard of each poll tick keeps polling only while the current
entry is `installing` or `update_complete` (the source also compares
against the string `reboot_required`, which is not a value of the
`CameraUpdateStatus` union and so can never match). -/
def pollableStatus (s : CameraUpdateStatus) : Bool :=
  s == .installing || s == .update_complete

/-- Whether a poll outcome reports a terminal install status (delivered
with an ok response and status `finished`, `reboot_required` or
`error`). -/
def terminalPoll (o : PollOutcome) : Bool :=
  match o with
  | .reply s body =>
      resOk s && (body.status == .finished || body.status == .reboot_required
        || body.status == .error)
  | .netError => false

/-- One tick of `pollInstallStatus` past the guard (source part_000 lines
281-306).  Returns the new state and whether the interval was cleared.
A non-ok response or a caught error only updates the message and retries;
an ok body first records the reported progress (falling back to the
current progress, or 50 when the current progress is 0, via the `||`)
and message, then on `finished`/`reboot_required` marks the entry
`update_complete` with progress 100, and on `error` marks it
`update_failed`. -/
def pollTick (ip : String) (o : PollOutcome) (st : DriverState) :
    DriverState × Bool :=
  let st1 := addCall st (.getStatus ip)
  match o with
  | .netError =>
      (pushUpdate st1 { message := some "Polling... (Network issue)" }, false)
  | .reply s body =>
      if !resOk s then
        (pushUpdate st1
          { message := some ("Polling... (HTTP " ++ toString s ++ ")") }, false)
      else
        let fallback := if st1.entry.progress = 0 then 50 else st1.entry.progress
        let st2 := pushUpdate st1
          { progress := some (body.progress.getD fallback)
            message := some (jsOrElse body.message ("Status: " ++ body.status.asString)) }
        match body.status with
        | .finished =>
            (pushUpdate st2
              { status := some .update_complete, progress := some 100
                message := some (jsOrElse body.message
                  "Installation successful. Camera may reboot.") }, true)
        | .reboot_required =>
            (pushUpdate st2
              { status := some .update_complete, progress := some 100
                message := some (jsOrElse body.message
                  "Installation successful. Camera may reboot.") }, true)
        | .error =>
            (pushUpdate st2
              { status := some .update_failed
                message := some (jsOrElse body.message
                  "Installation reported an error.") }, true)
        | _ => (st2, false)

/-- The poll loop of `pollInstallStatus` over the environment-supplied
sequence of tick outcomes.  At the top of every tick the guard re-reads
the current entry: when its status is no longer pollable the interval is
cleared (re-issuing, in the `update_failed` case, the entry message with
the `||` fallback) and the promise resolves. -/
def pollRun (ip : String) (outs : List PollOutcome) (st : DriverState) :
    DriverState :=
  match outs with
  | [] => st
  | o :: rest =>
      if pollableStatus st.entry.status then
        match pollTick ip o st with
        | (st1, true) => st1
        | (st1, false) => pollRun ip rest st1
      else
        if st.entry.status == .update_failed then
          pushUpdate st { message := some (jsOrElse (some st.entry.message)
            "Installation failed or stopped.") }
        else st

/-- The environment of one device during a batch run: the pre-update
check outcome, the upload environment, the install-trigger outcome with
the response text read on failure, and the successive poll outcomes. -/
structure DeviceEnv where
  preCheck : HttpOutcome
  upload : UploadEnv
  install : HttpOutcome
  installErrorText : String
  polls : List PollOutcome
deriving Repr

/-- Steps 1-3 of the per-device body of the batch loop, entered after the
pre-update check passed: upload, and unless it failed (`if
(!uploadSuccess) continue`), install trigger, and unless it failed, the
poll loop. -/
def runDeviceFromUpload (ip : String) (env : DeviceEnv) (st : DriverState) :
    DriverState :=
  let st1 := pushUpdate st
    { status := some .uploading, progress := some 0
      message := some "Uploading firmware..." }
  let up := uploadFirmware ip env.upload st1
  if up.2 then
    let st3 := pushUpdate up.1
      { status := some .installing, progress := some 0
        message := some "Starting installation..." }
    let ins := startCameraInstall ip env.install env.installErrorText st3
    if ins.2 then pollRun ip env.polls ins.1 else ins.1
  else up.1

/-- The per-device body of the `handleStartAllUpdates` loop for an
eligible entry (source part_000 lines 172-196): pre-update check, then
upload, install trigger and poll; each failing step ends the device with
`update_failed` and the loop continues with the next entry. -/
def runDevice (e : CameraEntry) (env : DeviceEnv) : DriverState :=
  let st1 := pushUpdate (DriverState.init e)
    { status := some .connecting, message := some "Verifying connection..." }
  let st2 := addCall st1 (.getStatus e.ip)
  match env.preCheck with
  | .response s =>
      if !resOk s && s ≠ 404 then
        pushUpdate st2
          { status := some .update_failed
            message := some ("Pre-update check failed (HTTP " ++ toString s ++ ")") }
      else
        runDeviceFromUpload e.ip env st2
  | .timeout =>
      pushUpdate st2
        { status := some .update_failed
          message := some "Pre-update connection failed." }
  | .netError =>
      pushUpdate st2
        { status := some .update_failed
          message := some "Pre-update connection failed." }

/-- The eligibility filter of `handleStartAllUpdates` (source part_000
lines 152 and 163): a trimmed non-empty ip and a status of `connected`,
`idle`, `update_failed` or `update_complete`. -/
def eligibleEntry (e : CameraEntry) : Bool :=
  !(trimmedIp e.ip = []) &&
  (e.status == .connected || e.status == .idle || e.status == .update_failed
    || e.status == .update_complete)

/-- The condition under which an ineligible entry is re-marked
`pending_update` inside the skip branch (source part_000 line 166). -/
def queueMark (e : CameraEntry) : Bool :=
  !(trimmedIp e.ip = []) && e.status != .failed_connection
    && e.status != .connecting && e.status != .uploading
    && e.status != .installing

/-- What the batch loop does with one entry of the snapshot it iterates:
an eligible entry runs the full driver; an ineligible one is excluded
from the run (at most re-marked `Queued for update.`). -/
def processEntry (envOf : String → DeviceEnv) (e : CameraEntry) : DriverState :=
  if eligibleEntry e then runDevice e (envOf e.id)
  else if queueMark e then
    pushUpdate (DriverState.init e)
      { status := some .pending_update, message := some "Queued for update." }
  else DriverState.init e

/-- Final entry list after `handleStartAllUpdates` ran the batch.
Entry ids are fresh UUIDs, so each driver only writes its own entry and
the shared-list evolution projects to this per-entry map (see the bridge
theorem `applyOps_batchOps`). -/
def runBatch (entries : List CameraEntry) (envOf : String → DeviceEnv) :
    List CameraEntry :=
  entries.map fun e => (processEntry envOf e).entry

/-- The full ordered trace of entry states written during the batch,
tagged with the id of the entry each state belongs to.  The loop awaits
every step, so the events of one device form a contiguous block and the
blocks follow the order of the entry list. -/
def batchTrace (entries : List CameraEntry) (envOf : String → DeviceEnv) :
    List (String × CameraEntry) :=
  entries.flatMap fun e => (processEntry envOf e).trace.map (Prod.mk e.id)

/-- The ordered sequence of `updateCameraEntry` calls the batch issues,
as (target id, patch) pairs. -/
def batchOps (entries : List CameraEntry) (envOf : String → DeviceEnv) :
    List (String × EntryUpdates) :=
  entries.flatMap fun e => (processEntry envOf e).ops.map (Prod.mk e.id)

/-- Replay a sequence of `updateCameraEntry` calls on the shared list. -/
def applyOps (entries : List CameraEntry) (ops : List (String × EntryUpdates)) :
    List CameraEntry :=
  ops.foldl (fun l p => updateCameraEntry l p.1 p.2) entries

/-! ### Helper lemmas -/

/-- The probe-failure message that records an HTTP status is never the
invalid-address message (their first characters differ). -/
lemma connectionErrorMsg_ne_invalid (x : String) :
    "Connection error (HTTP " ++ x ++ ")" ≠ "Invalid IP format." := by
  intro h
  have h2 : ("Connection error (HTTP " ++ x ++ ")").data.headI =
      ("Invalid IP format." : String).data.headI := congrArg (fun s => s.data.headI) h
  have hC : ("Connection error (HTTP " ++ x ++ ")").data.headI = 'C' := rfl
  rw [hC] at h2
  exact absurd h2 (by decide)

/-- The connection-check verdict never carries the invalid-address
message: that message is produced only by the pre-probe guard. -/
lemma checkConnectionVerdict_msg_ne_invalid (o : HttpOutcome) :
    (checkConnectionVerdict o).2 ≠ "Invalid IP format." := by
  cases o with
  | response s =>
      by_cases h : (resOk s || s == 404) = true
      · simp [checkConnectionVerdict, h]
      · simp only [checkConnectionVerdict, h]
        simp only [Bool.not_eq_true] at h
        rw [if_neg (by simp [h])]
        exact connectionErrorMsg_ne_invalid (toString s)
  | timeout => simp [checkConnectionVerdict]
  | netError => simp [checkConnectionVerdict]

/-! ### C5 -/

/-- C5 (confirmed).  For every probed device the verdict is a function of
the HTTP outcome of the GET to the status endpoint: a 2xx or a 404
response yields `connected`; any other response yields the unreachable
verdict (`failed_connection`) with the HTTP status code recorded in the
message; a timeout or a network error yields the unreachable verdict with
the error class recorded in the message. -/
theorem c5_probe_verdict :
    (∀ s : Nat, resOk s = true ∨ s = 404 →
      checkConnectionVerdict (.response s) = (.connected, "Reachable and ready.")) ∧
    (∀ s : Nat, resOk s = false → s ≠ 404 →
      checkConnectionVerdict (.response s) =
        (.failed_connection, "Connection error (HTTP " ++ toString s ++ ")")) ∧
    checkConnectionVerdict .timeout = (.failed_connection, "Connection timed out.") ∧
    checkConnectionVerdict .netError =
      (.failed_connection, "Network error or CORS. Check console.") := by
  refine ⟨?_, ?_, rfl, rfl⟩
  · intro s hs
    rcases hs with h | h
    · simp [checkConnectionVerdict, h]
    · subst h; simp [checkConnectionVerdict]
  · intro s h1 h2
    simp [checkConnectionVerdict, h1, h2]

/-- Witness for C5 at concrete statuses 200, 404 and 500. -/
theorem c5_probe_verdict_witness :
    checkConnectionVerdict (.response 200) = (.connected, "Reachable and ready.") ∧
    checkConnectionVerdict (.response 404) = (.connected, "Reachable and ready.") ∧
    checkConnectionVerdict (.response 500) =
      (.failed_connection, "Connection error (HTTP " ++ toString 500 ++ ")") :=
  ⟨c5_probe_verdict.1 200 (Or.inl (by decide)),
   c5_probe_verdict.1 404 (Or.inr rfl),
   c5_probe_verdict.2.1 500 (by decide) (by decide)⟩

/-! ### C6 -/

/-- C6 (confirmed).  An address failing the strict IPv4 syntax check of
the prober (the regex applied to the trimmed ip) causes no network call
and is marked with the invalid-address verdict; an address passing the
check is probed (exactly one GET to the status endpoint), its verdict is
the one computed from the HTTP outcome, and the invalid-address verdict
is never produced for it. -/
theorem c6_invalid_address_guard (e : CameraEntry) (o : HttpOutcome) :
    (hasValidIp e.ip = false →
      (checkConnectionEntry e o).2 = [] ∧
      (checkConnectionEntry e o).1.status = .failed_connection ∧
      (checkConnectionEntry e o).1.message = "Invalid IP format.") ∧
    (hasValidIp e.ip = true →
      (checkConnectionEntry e o).2 = [.getStatus e.ip] ∧
      (checkConnectionEntry e o).1.status = (checkConnectionVerdict o).1 ∧
      (checkConnectionEntry e o).1.message = (checkConnectionVerdict o).2 ∧
      (checkConnectionEntry e o).1.message ≠ "Invalid IP format.") := by
  constructor
  · intro h
    simp [checkConnectionEntry, h]
  · intro h
    have h1 : checkConnectionEntry e o =
        ({ e with
            status := (checkConnectionVerdict o).1
            message := (checkConnectionVerdict o).2 },
         [.getStatus e.ip]) := by
      simp [checkConnectionEntry, h]
    rw [h1]
    exact ⟨rfl, rfl, rfl, checkConnectionVerdict_msg_ne_invalid o⟩

/-- Witness for C6: a malformed address is rejected without a call, a
valid one is probed. -/
theorem c6_invalid_address_guard_witness :
    (checkConnectionEntry
        { id := "w1", ip := "not-an-ip", status := .idle, progress := 0, message := "" }
        (.response 200)).2 = [] ∧
    (checkConnectionEntry
        { id := "w2", ip := "192.168.1.50", status := .idle, progress := 0, message := "" }
        (.response 200)).2 = [.getStatus "192.168.1.50"] :=
  ⟨((c6_invalid_address_guard
      { id := "w1", ip := "not-an-ip", status := .idle, progress := 0, message := "" }
      (.response 200)).1 (by decide)).1,
   ((c6_invalid_address_guard
      { id := "w2", ip := "192.168.1.50", status := .idle, progress := 0, message := "" }
      (.response 200)).2 (by decide)).1⟩

/-! ### C4 -/

/-- C4 (counterexample).  In `handleCheckAllConnections` (the batch
updater actually mounted by the app page) the probes are awaited one
after another: a batch of three devices that never respond takes three
times the configured timeout, not approximately one timeout, and the
second device's result (raw duration 10 ms) only becomes available
5010 ms into the phase because the first never-responding device holds it
up for a full timeout. -/
theorem c4_sequential_probe_counterexample :
    sequentialProbePhaseDuration [6000, 6000, 6000] = 3 * probeTimeoutMs ∧
    concurrentProbePhaseDuration [6000, 6000, 6000] = probeTimeoutMs ∧
    sequentialResultTime [6000, 10, 10] 1 = 5010 ∧
    effectiveProbeDuration 10 = 10 := by
  refine ⟨by decide, by decide, by decide, by decide⟩

/-- C4 (amended).  Every probe is individually bounded by its own
5-second timeout in both provers.  The earlier `handleConnectToCameras`
(part_002) runs the probes concurrently, so the whole phase completes
within the timeout regardless of the batch size.  The current
`handleCheckAllConnections` (part_000) awaits the probes sequentially:
each device's result waits for the sum of all earlier effective probe
durations, and the phase is bounded only by N times the timeout. -/
theorem c4_probe_timing_amended (ds : List Nat) :
    (∀ d ∈ ds, effectiveProbeDuration d ≤ probeTimeoutMs) ∧
    concurrentProbePhaseDuration ds ≤ probeTimeoutMs ∧
    sequentialProbePhaseDuration ds ≤ ds.length * probeTimeoutMs ∧
    (∀ i d, ds[i]? = some d →
      sequentialResultTime ds i =
        ((ds.take i).map effectiveProbeDuration).sum + effectiveProbeDuration d) := by
  refine ⟨fun d _ => min_le_right d probeTimeoutMs, ?_, ?_, ?_⟩
  · induction ds with
    | nil => simp [concurrentProbePhaseDuration]
    | cons d rest ih =>
        simp only [concurrentProbePhaseDuration, List.map_cons, List.foldr_cons]
        exact max_le (min_le_right d probeTimeoutMs) ih
  · have h := List.sum_le_card_nsmul (ds.map effectiveProbeDuration) probeTimeoutMs
      (by
        intro x hx
        rcases List.mem_map.1 hx with ⟨d, _, rfl⟩
        exact min_le_right d probeTimeoutMs)
    simpa [sequentialProbePhaseDuration] using h
  · intro i d hd
    have ht : ds.take (i + 1) = ds.take i ++ [d] := by
      simp [List.take_succ, hd]
    simp [sequentialResultTime, ht]

/-- Witness for C4 (amended) at a concrete duration list. -/
theorem c4_probe_timing_amended_witness :
    concurrentProbePhaseDuration [6000, 10, 10] ≤ probeTimeoutMs ∧
    sequentialProbePhaseDuration [6000, 10, 10] ≤ 3 * probeTimeoutMs ∧
    sequentialResultTime [6000, 10, 10] 1 =
      (([6000, 10, 10].take 1).map effectiveProbeDuration).sum + effectiveProbeDuration 10 :=
  ⟨(c4_probe_timing_amended [6000, 10, 10]).2.1,
   (c4_probe_timing_amended [6000, 10, 10]).2.2.1,
   (c4_probe_timing_amended [6000, 10, 10]).2.2.2 1 10 rfl⟩

/-! ### C10 -/

/-- C10 (confirmed).  Every call to `updateCameraEntry(id, updates)`
preserves the length and order of the entry list (no entry added or
removed), leaves every entry with a different id unchanged, and changes
in the matching entry exactly the fields named in the update: a field
absent from the patch keeps its value. -/
theorem c10_update_frame (entries : List CameraEntry) (tid : String)
    (u : EntryUpdates) :
    (updateCameraEntry entries tid u).length = entries.length ∧
    (∀ (i : Nat) (e : CameraEntry), entries[i]? = some e →
      ((e.id ≠ tid → (updateCameraEntry entries tid u)[i]? = some e) ∧
       (e.id = tid →
          (updateCameraEntry entries tid u)[i]? = some (applyUpdates e u) ∧
          (u.id = none → (applyUpdates e u).id = e.id) ∧
          (u.ip = none → (applyUpdates e u).ip = e.ip) ∧
          (u.status = none → (applyUpdates e u).status = e.status) ∧
          (u.progress = none → (applyUpdates e u).progress = e.progress) ∧
          (u.message = none → (applyUpdates e u).message = e.message)))) := by
  constructor
  · simp [updateCameraEntry]
  · intro i e he
    constructor
    · intro hne
      simp [updateCameraEntry, List.getElem?_map, he, hne]
    · intro heq
      refine ⟨by simp [updateCameraEntry, List.getElem?_map, he, heq], ?_, ?_, ?_, ?_, ?_⟩
      all_goals intro h
      all_goals simp [applyUpdates, h]

/-- Witness for C10: a progress-only patch on a two-entry list touches
only the matching entry's progress. -/
theorem c10_update_frame_witness :
    (updateCameraEntry
      [{ id := "a", ip := "10.0.0.1", status := .uploading, progress := 3, message := "m" },
       { id := "b", ip := "10.0.0.2", status := .idle, progress := 0, message := "n" }]
      "a" { progress := some 42 })[1]? =
      some { id := "b", ip := "10.0.0.2", status := .idle, progress := 0, message := "n" } :=
  (((c10_update_frame
      [{ id := "a", ip := "10.0.0.1", status := .uploading, progress := 3, message := "m" },
       { id := "b", ip := "10.0.0.2", status := .idle, progress := 0, message := "n" }]
      "a" { progress := some 42 }).2 1
      { id := "b", ip := "10.0.0.2", status := .idle, progress := 0, message := "n" }
      rfl).1 (by decide))

/-! ### Outcome predicates used to describe device environments -/

/-- The pre-update check passes when the response is ok or a 404
(source part_000 line 176). -/
def precheckPasses (o : HttpOutcome) : Bool :=
  match o with
  | .response s => resOk s || s == 404
  | .timeout => false
  | .netError => false

/-- The upload is accepted by the driver exactly when the load status is
exactly 200 (source part_000 line 217). -/
def uploadAccepted (o : UploadOutcome) : Bool :=
  match o with
  | .loaded s _ => s == 200
  | .netError => false
  | .aborted => false
  | .timedOut => false

/-- The upload fails in the sense of the claims: a non-2xx load, an
abort, or a transport error. -/
def uploadFailsPerClaim (o : UploadOutcome) : Bool :=
  match o with
  | .loaded s _ => !resOk s
  | .netError => true
  | .aborted => true
  | .timedOut => true

/-- The install trigger is accepted when the response is ok
(source part_000 line 252). -/
def installAccepted (o : HttpOutcome) : Bool :=
  match o with
  | .response s => resOk s
  | .timeout => false
  | .netError => false

/-- A terminal poll outcome reporting success. -/
def successTerminalPoll (o : PollOutcome) : Bool :=
  match o with
  | .reply s body =>
      resOk s && (body.status == .finished || body.status == .reboot_required)
  | .netError => false

/-- The first terminal outcome in the poll sequence reports success. -/
def pollListSucceeds : List PollOutcome → Bool
  | [] => false
  | o :: rest => if terminalPoll o then successTerminalPoll o else pollListSucceeds rest

/-- The device run reaches a terminal state: some step fails early, or
the poll sequence contains a device-reported terminal status. -/
def deviceRunTerminates (env : DeviceEnv) : Bool :=
  !precheckPasses env.preCheck || !uploadAccepted env.upload.outcome
    || !installAccepted env.install || env.polls.any terminalPoll

/-- Every step of the device run succeeds. -/
def deviceEnvSucceeds (env : DeviceEnv) : Bool :=
  precheckPasses env.preCheck && uploadAccepted env.upload.outcome
    && installAccepted env.install && pollListSucceeds env.polls

/-! ### Basic driver-state lemmas -/

@[simp] lemma pushUpdate_entry (st : DriverState) (u : EntryUpdates) :
    (pushUpdate st u).entry = applyUpdates st.entry u := rfl

@[simp] lemma pushUpdate_calls (st : DriverState) (u : EntryUpdates) :
    (pushUpdate st u).calls = st.calls := rfl

@[simp] lemma pushUpdate_ops (st : DriverState) (u : EntryUpdates) :
    (pushUpdate st u).ops = st.ops ++ [u] := rfl

@[simp] lemma pushUpdate_trace (st : DriverState) (u : EntryUpdates) :
    (pushUpdate st u).trace = st.trace ++ [applyUpdates st.entry u] := rfl

@[simp] lemma addCall_entry (st : DriverState) (c : NetworkCall) :
    (addCall st c).entry = st.entry := rfl

@[simp] lemma addCall_calls (st : DriverState) (c : NetworkCall) :
    (addCall st c).calls = st.calls ++ [c] := rfl

@[simp] lemma addCall_ops (st : DriverState) (c : NetworkCall) :
    (addCall st c).ops = st.ops := rfl

@[simp] lemma addCall_trace (st : DriverState) (c : NetworkCall) :
    (addCall st c).trace = st.trace := rfl

lemma pushUpdate_lastTrace (st : DriverState) (u : EntryUpdates) :
    (pushUpdate st u).trace.getLast? = some (pushUpdate st u).entry := by
  simp

/-! ### Upload lemmas -/

/-- The successive entry states written while replaying the
byte-progress events, starting from entry `e`. -/
def uploadStates (e : CameraEntry) : List (Nat × Nat) → List CameraEntry
  | [] => []
  | ev :: rest =>
      let e2 := applyUpdates e
        { progress := some (uploadPct ev.1 ev.2)
          message := some ("Uploading: " ++ toString (uploadPct ev.1 ev.2) ++ "%") }
      e2 :: uploadStates e2 rest

lemma applyUploadEvents_trace (evs : List (Nat × Nat)) :
    ∀ st : DriverState,
      (applyUploadEvents st evs).trace = st.trace ++ uploadStates st.entry evs := by
  induction evs with
  | nil => intro st; simp [applyUploadEvents, uploadStates]
  | cons ev rest ih =>
      intro st
      simp only [applyUploadEvents, uploadStates]
      rw [ih]
      simp

lemma applyUploadEvents_entry_status (evs : List (Nat × Nat)) :
    ∀ st : DriverState,
      (applyUploadEvents st evs).entry.status = st.entry.status := by
  induction evs with
  | nil => intro st; simp [applyUploadEvents]
  | cons ev rest ih =>
      intro st
      simp only [applyUploadEvents]
      rw [ih]
      simp [applyUpdates]

lemma applyUploadEvents_calls (evs : List (Nat × Nat)) :
    ∀ st : DriverState, (applyUploadEvents st evs).calls = st.calls := by
  induction evs with
  | nil => intro st; simp [applyUploadEvents]
  | cons ev rest ih =>
      intro st
      simp only [applyUploadEvents]
      rw [ih]
      simp

lemma applyUploadEvents_ops (evs : List (Nat × Nat)) :
    ∀ (st : DriverState) (u : EntryUpdates),
      u ∈ (applyUploadEvents st evs).ops → u ∈ st.ops ∨ u.status = none := by
  induction evs with
  | nil => intro st u h; exact Or.inl h
  | cons ev rest ih =>
      intro st u h
      rcases ih _ u h with h2 | h2
      · simp only [pushUpdate_ops, List.mem_append, List.mem_singleton] at h2
        rcases h2 with h3 | h3
        · exact Or.inl h3
        · subst h3; exact Or.inr rfl
      · exact Or.inr h2

lemma uploadStates_progress (evs : List (Nat × Nat)) :
    ∀ e : CameraEntry,
      (uploadStates e evs).map CameraEntry.progress =
        evs.map fun ev => uploadPct ev.1 ev.2 := by
  induction evs with
  | nil => intro e; simp [uploadStates]
  | cons ev rest ih =>
      intro e
      simp only [uploadStates, List.map_cons]
      rw [ih]
      simp [applyUpdates]

lemma uploadStates_status (evs : List (Nat × Nat)) :
    ∀ (e : CameraEntry) (s : CameraEntry),
      s ∈ uploadStates e evs → s.status = e.status := by
  induction evs with
  | nil => intro e s h; simp [uploadStates] at h
  | cons ev rest ih =>
      intro e s h
      simp only [uploadStates, List.mem_cons] at h
      rcases h with h | h
      · subst h; simp [applyUpdates]
      · rw [ih _ s h]; simp [applyUpdates]

lemma uploadFirmware_snd (ip : String) (env : UploadEnv) (st : DriverState) :
    (uploadFirmware ip env st).2 = uploadAccepted env.outcome := by
  cases henv : env.outcome with
  | loaded s txt =>
      by_cases h : s = 200
      · subst h; simp [uploadFirmware, henv, uploadAccepted]
      · simp [uploadFirmware, henv, uploadAccepted, h]
  | netError => simp [uploadFirmware, henv, uploadAccepted]
  | aborted => simp [uploadFirmware, henv, uploadAccepted]
  | timedOut => simp [uploadFirmware, henv, uploadAccepted]

lemma uploadFirmware_calls (ip : String) (env : UploadEnv) (st : DriverState) :
    (uploadFirmware ip env st).1.calls = st.calls ++ [.postUpload ip] := by
  cases henv : env.outcome with
  | loaded s txt =>
      by_cases h : s = 200
      · subst h; simp [uploadFirmware, henv, applyUploadEvents_calls]
      · simp [uploadFirmware, henv, h, applyUploadEvents_calls]
  | netError => simp [uploadFirmware, henv, applyUploadEvents_calls]
  | aborted => simp [uploadFirmware, henv, applyUploadEvents_calls]
  | timedOut => simp [uploadFirmware, henv, applyUploadEvents_calls]

lemma uploadFirmware_success_status (ip : String) (env : UploadEnv)
    (st : DriverState) (h : uploadAccepted env.outcome = true) :
    (uploadFirmware ip env st).1.entry.status = st.entry.status ∧
    (uploadFirmware ip env st).1.entry.progress = 100 := by
  cases henv : env.outcome with
  | loaded s txt =>
      rw [henv] at h
      simp only [uploadAccepted, beq_iff_eq] at h
      subst h
      constructor
      · simp [uploadFirmware, henv, applyUpdates, applyUploadEvents_entry_status]
      · simp [uploadFirmware, henv, applyUpdates]
  | netError => rw [henv] at h; simp [uploadAccepted] at h
  | aborted => rw [henv] at h; simp [uploadAccepted] at h
  | timedOut => rw [henv] at h; simp [uploadAccepted] at h

lemma uploadFirmware_fail_status (ip : String) (env : UploadEnv)
    (st : DriverState) (h : uploadAccepted env.outcome = false) :
    (uploadFirmware ip env st).1.entry.status = .update_failed ∧
    (uploadFirmware ip env st).1.entry.progress = 0 := by
  cases henv : env.outcome with
  | loaded s txt =>
      rw [henv] at h
      have h2 : s ≠ 200 := by simpa [uploadAccepted] using h
      simp [uploadFirmware, henv, h2, applyUpdates]
  | netError => simp [uploadFirmware, henv, applyUpdates]
  | aborted => simp [uploadFirmware, henv, applyUpdates]
  | timedOut => simp [uploadFirmware, henv, applyUpdates]

/-! ### Install-trigger lemmas -/

lemma startCameraInstall_snd (ip : String) (o : HttpOutcome) (txt : String)
    (st : DriverState) :
    (startCameraInstall ip o txt st).2 = installAccepted o := by
  cases o with
  | response s =>
      by_cases h : resOk s = true
      · simp [startCameraInstall, installAccepted, h]
      · simp only [Bool.not_eq_true] at h
        simp [startCameraInstall, installAccepted, h]
  | timeout => simp [startCameraInstall, installAccepted]
  | netError => simp [startCameraInstall, installAccepted]

lemma startCameraInstall_calls (ip : String) (o : HttpOutcome) (txt : String)
    (st : DriverState) :
    (startCameraInstall ip o txt st).1.calls = st.calls ++ [.postStart ip] := by
  cases o with
  | response s =>
      by_cases h : resOk s = true
      · simp [startCameraInstall, h]
      · simp only [Bool.not_eq_true] at h
        simp [startCameraInstall, h]
  | timeout => simp [startCameraInstall]
  | netError => simp [startCameraInstall]

lemma startCameraInstall_success_entry (ip : String) (o : HttpOutcome)
    (txt : String) (st : DriverState) (h : installAccepted o = true) :
    (startCameraInstall ip o txt st).1.entry.status = st.entry.status ∧
    (startCameraInstall ip o txt st).1.entry.progress = st.entry.progress := by
  cases o with
  | response s =>
      simp only [installAccepted] at h
      simp [startCameraInstall, h, applyUpdates]
  | timeout => simp [installAccepted] at h
  | netError => simp [installAccepted] at h

lemma startCameraInstall_fail_status (ip : String) (o : HttpOutcome)
    (txt : String) (st : DriverState) (h : installAccepted o = false) :
    (startCameraInstall ip o txt st).1.entry.status = .update_failed := by
  cases o with
  | response s =>
      simp only [installAccepted] at h
      simp [startCameraInstall, h, applyUpdates]
  | timeout => simp [startCameraInstall, applyUpdates]
  | netError => simp [startCameraInstall, applyUpdates]

/-! ### Poll lemmas -/

lemma pollTick_snd (ip : String) (o : PollOutcome) (st : DriverState) :
    (pollTick ip o st).2 = terminalPoll o := by
  cases o with
  | netError => simp [pollTick, terminalPoll]
  | reply s body =>
      by_cases h : resOk s = true
      · cases hb : body.status <;>
          simp [pollTick, terminalPoll, h, hb]
      · simp only [Bool.not_eq_true] at h
        simp [pollTick, terminalPoll, h]

lemma pollTick_status_nonterminal (ip : String) (o : PollOutcome)
    (st : DriverState) (h : terminalPoll o = false) :
    (pollTick ip o st).1.entry.status = st.entry.status := by
  cases o with
  | netError => simp [pollTick, applyUpdates]
  | reply s body =>
      by_cases hs : resOk s = true
      · rw [show terminalPoll (.reply s body) =
            (body.status == .finished || body.status == .reboot_required
              || body.status == .error) from by simp [terminalPoll, hs]] at h
        cases hb : body.status <;> rw [hb] at h <;> simp at h <;>
          simp [pollTick, hs, hb, applyUpdates]
      · simp only [Bool.not_eq_true] at hs
        simp [pollTick, hs, applyUpdates]

lemma pollTick_transient_entry (ip : String) (s : Nat) (body : InstallStatusResp)
    (st : DriverState) (h : resOk s = false) :
    (pollTick ip (.reply s body) st).1.entry.status = st.entry.status ∧
    (pollTick ip (.reply s body) st).1.entry.progress = st.entry.progress := by
  simp [pollTick, h, applyUpdates]

lemma pollTick_netError_entry (ip : String) (st : DriverState) :
    (pollTick ip .netError st).1.entry.status = st.entry.status ∧
    (pollTick ip .netError st).1.entry.progress = st.entry.progress := by
  simp [pollTick, applyUpdates]

lemma pollTick_success_entry (ip : String) (s : Nat) (body : InstallStatusResp)
    (st : DriverState) (hs : resOk s = true)
    (hb : body.status = .finished ∨ body.status = .reboot_required) :
    (pollTick ip (.reply s body) st).1.entry.status = .update_complete ∧
    (pollTick ip (.reply s body) st).1.entry.progress = 100 := by
  rcases hb with hb | hb <;> simp [pollTick, hs, hb, applyUpdates]

lemma pollTick_error_entry (ip : String) (s : Nat) (body : InstallStatusResp)
    (st : DriverState) (hs : resOk s = true) (hb : body.status = .error) :
    (pollTick ip (.reply s body) st).1.entry.status = .update_failed := by
  simp [pollTick, hs, hb, applyUpdates]

lemma pollTick_reported_progress (ip : String) (s : Nat)
    (body : InstallStatusResp) (st : DriverState) (p : Nat)
    (hs : resOk s = true) (hp : body.progress = some p)
    (hb : body.status = .started ∨ body.status = .in_progress ∨
      body.status = .error) :
    (pollTick ip (.reply s body) st).1.entry.progress = p := by
  rcases hb with hb | hb | hb <;> simp [pollTick, hs, hb, hp, applyUpdates]

lemma pollRun_not_pollable (ip : String) (outs : List PollOutcome)
    (st : DriverState) (h : pollableStatus st.entry.status = false) :
    (pollRun ip outs st).calls = st.calls ∧
    (pollRun ip outs st).entry.status = st.entry.status := by
  cases outs with
  | nil => simp [pollRun]
  | cons o rest =>
      simp only [pollRun, h, Bool.false_eq_true, if_false]
      by_cases h2 : (st.entry.status == CameraUpdateStatus.update_failed) = true
      · simp [h2, applyUpdates]
      · simp only [Bool.not_eq_true] at h2
        simp [h2]

lemma pollRun_transient (ip : String) (outs : List PollOutcome) :
    ∀ st : DriverState, st.entry.status = .installing →
      (∀ o ∈ outs, terminalPoll o = false) →
      (pollRun ip outs st).entry.status = .installing := by
  induction outs with
  | nil => intro st h _; simpa [pollRun] using h
  | cons o rest ih =>
      intro st h hall
      have hp : pollableStatus st.entry.status = true := by
        simp [pollableStatus, h]
      have ht : terminalPoll o = false := hall o (by simp)
      have hsnd := pollTick_snd ip o st
      rw [ht] at hsnd
      simp only [pollRun, hp, if_true]
      rcases hpt : pollTick ip o st with ⟨st1, stop⟩
      rw [hpt] at hsnd
      simp only at hsnd
      subst hsnd
      have hst1 : st1.entry.status = .installing := by
        have := pollTick_status_nonterminal ip o st ht
        rw [hpt] at this
        simpa [h] using this
      exact ih st1 hst1 fun o2 ho2 => hall o2 (by simp [ho2])

lemma pollRun_terminates (ip : String) (outs : List PollOutcome) :
    ∀ st : DriverState, st.entry.status = .installing →
      outs.any terminalPoll = true →
      (pollRun ip outs st).entry.status = .update_complete ∨
      (pollRun ip outs st).entry.status = .update_failed := by
  induction outs with
  | nil => intro st _ h; simp at h
  | cons o rest ih =>
      intro st h hany
      have hp : pollableStatus st.entry.status = true := by
        simp [pollableStatus, h]
      simp only [pollRun, hp, if_true]
      by_cases ht : terminalPoll o = true
      · have hsnd := pollTick_snd ip o st
        rw [ht] at hsnd
        rcases hpt : pollTick ip o st with ⟨st1, stop⟩
        rw [hpt] at hsnd
        simp only at hsnd
        subst hsnd
        cases o with
        | netError => simp [terminalPoll] at ht
        | reply s body =>
            have hs : resOk s = true := by
              by_contra hs2
              simp only [Bool.not_eq_true] at hs2
              simp [terminalPoll, hs2] at ht
            have hb : body.status = .finished ∨ body.status = .reboot_required ∨
                body.status = .error := by
              cases hb2 : body.status <;> simp [terminalPoll, hs, hb2] at ht <;>
                simp [hb2]
            rcases hb with hb | hb | hb
            · left
              have := pollTick_success_entry ip s body st hs (Or.inl hb)
              rw [hpt] at this
              exact this.1
            · left
              have := pollTick_success_entry ip s body st hs (Or.inr hb)
              rw [hpt] at this
              exact this.1
            · right
              have := pollTick_error_entry ip s body st hs hb
              rw [hpt] at this
              exact this
      · simp only [Bool.not_eq_true] at ht
        have hsnd := pollTick_snd ip o st
        rw [ht] at hsnd
        rcases hpt : pollTick ip o st with ⟨st1, stop⟩
        rw [hpt] at hsnd
        simp only at hsnd
        subst hsnd
        have hst1 : st1.entry.status = .installing := by
          have := pollTick_status_nonterminal ip o st ht
          rw [hpt] at this
          simpa [h] using this
        have hany2 : rest.any terminalPoll = true := by
          simp only [List.any_cons, ht, Bool.false_or] at hany
          exact hany
        exact ih st1 hst1 hany2

lemma pollRun_succeeds (ip : String) (outs : List PollOutcome) :
    ∀ st : DriverState, st.entry.status = .installing →
      pollListSucceeds outs = true →
      (pollRun ip outs st).entry.status = .update_complete ∧
      (pollRun ip outs st).entry.progress = 100 := by
  induction outs with
  | nil => intro st _ h; simp [pollListSucceeds] at h
  | cons o rest ih =>
      intro st h hsuc
      have hp : pollableStatus st.entry.status = true := by
        simp [pollableStatus, h]
      simp only [pollRun, hp, if_true]
      by_cases ht : terminalPoll o = true
      · have hsw : successTerminalPoll o = true := by
          simpa [pollListSucceeds, ht] using hsuc
        have hsnd := pollTick_snd ip o st
        rw [ht] at hsnd
        rcases hpt : pollTick ip o st with ⟨st1, stop⟩
        rw [hpt] at hsnd
        simp only at hsnd
        subst hsnd
        cases o with
        | netError => simp [terminalPoll] at ht
        | reply s body =>
            have hs : resOk s = true := by
              by_contra hs2
              simp only [Bool.not_eq_true] at hs2
              simp [terminalPoll, hs2] at ht
            have hb : body.status = .finished ∨ body.status = .reboot_required := by
              cases hb2 : body.status <;>
                simp [successTerminalPoll, hs, hb2] at hsw <;> simp [hb2]
            have := pollTick_success_entry ip s body st hs hb
            rw [hpt] at this
            exact this
      · simp only [Bool.not_eq_true] at ht
        have hsuc2 : pollListSucceeds rest = true := by
          simpa [pollListSucceeds, ht] using hsuc
        have hsnd := pollTick_snd ip o st
        rw [ht] at hsnd
        rcases hpt : pollTick ip o st with ⟨st1, stop⟩
        rw [hpt] at hsnd
        simp only at hsnd
        subst hsnd
        have hst1 : st1.entry.status = .installing := by
          have := pollTick_status_nonterminal ip o st ht
          rw [hpt] at this
          simpa [h] using this
        exact ih st1 hst1 hsuc2

/-! ### Device-run lemmas -/

lemma pollTick_calls (ip : String) (o : PollOutcome) (st : DriverState) :
    (pollTick ip o st).1.calls = st.calls ++ [.getStatus ip] := by
  cases o with
  | netError => simp [pollTick]
  | reply s body =>
      by_cases hs : resOk s = true
      · cases hb : body.status <;> simp [pollTick, hs, hb]
      · simp only [Bool.not_eq_true] at hs
        simp [pollTick, hs]

lemma pollRun_calls_mono (ip : String) (outs : List PollOutcome) :
    ∀ (st : DriverState) (c : NetworkCall),
      c ∈ st.calls → c ∈ (pollRun ip outs st).calls := by
  induction outs with
  | nil => intro st c h; simpa [pollRun] using h
  | cons o rest ih =>
      intro st c h
      by_cases hp : pollableStatus st.entry.status = true
      · simp only [pollRun, hp, if_true]
        rcases hpt : pollTick ip o st with ⟨st1, stop⟩
        have hc : c ∈ st1.calls := by
          have := pollTick_calls ip o st
          rw [hpt] at this
          simp only at this
          rw [this]
          exact List.mem_append_left _ h
        cases stop
        · exact ih st1 c hc
        · exact hc
      · simp only [Bool.not_eq_true] at hp
        exact ((pollRun_not_pollable ip (o :: rest) st hp).1 ▸ h)

/-- The driver state right after the uploading patch was applied. -/
def uploadingState (st : DriverState) : DriverState :=
  pushUpdate st
    { status := some .uploading, progress := some 0
      message := some "Uploading firmware..." }

/-- The driver state right after the install trigger returned, on the
path where the upload was accepted. -/
def installTriggerState (ip : String) (env : DeviceEnv) (st : DriverState) :
    DriverState :=
  (startCameraInstall ip env.install env.installErrorText
    (pushUpdate (uploadFirmware ip env.upload (uploadingState st)).1
      { status := some .installing, progress := some 0
        message := some "Starting installation..." })).1

lemma runDeviceFromUpload_eq_fail (ip : String) (env : DeviceEnv)
    (st : DriverState) (h : uploadAccepted env.upload.outcome = false) :
    runDeviceFromUpload ip env st =
      (uploadFirmware ip env.upload (uploadingState st)).1 := by
  simp only [runDeviceFromUpload, uploadFirmware_snd, h, Bool.false_eq_true,
    if_false, uploadingState]

lemma runDeviceFromUpload_eq_installFail (ip : String) (env : DeviceEnv)
    (st : DriverState) (h : uploadAccepted env.upload.outcome = true)
    (h3 : installAccepted env.install = false) :
    runDeviceFromUpload ip env st = installTriggerState ip env st := by
  simp only [runDeviceFromUpload, uploadFirmware_snd, h, if_true,
    startCameraInstall_snd, h3, Bool.false_eq_true, if_false,
    installTriggerState, uploadingState]

lemma runDeviceFromUpload_eq_poll (ip : String) (env : DeviceEnv)
    (st : DriverState) (h : uploadAccepted env.upload.outcome = true)
    (h3 : installAccepted env.install = true) :
    runDeviceFromUpload ip env st =
      pollRun ip env.polls (installTriggerState ip env st) := by
  simp only [runDeviceFromUpload, uploadFirmware_snd, h, if_true,
    startCameraInstall_snd, h3, installTriggerState, uploadingState]

lemma runDeviceFromUpload_upload_fail (ip : String) (env : DeviceEnv)
    (st : DriverState) (h : uploadAccepted env.upload.outcome = false) :
    (runDeviceFromUpload ip env st).entry.status = .update_failed ∧
    (runDeviceFromUpload ip env st).entry.progress = 0 ∧
    (runDeviceFromUpload ip env st).calls = st.calls ++ [.postUpload ip] := by
  rw [runDeviceFromUpload_eq_fail ip env st h]
  refine ⟨(uploadFirmware_fail_status ip env.upload _ h).1,
    (uploadFirmware_fail_status ip env.upload _ h).2, ?_⟩
  rw [uploadFirmware_calls]
  simp [uploadingState]

lemma installTriggerState_status (ip : String) (env : DeviceEnv)
    (st : DriverState) (hins : installAccepted env.install = true) :
    (installTriggerState ip env st).entry.status = .installing := by
  rw [installTriggerState]
  rw [(startCameraInstall_success_entry ip env.install env.installErrorText _ hins).1]
  simp [applyUpdates]

lemma installTriggerState_calls (ip : String) (env : DeviceEnv)
    (st : DriverState) :
    (installTriggerState ip env st).calls =
      st.calls ++ [.postUpload ip, .postStart ip] := by
  rw [installTriggerState, startCameraInstall_calls]
  simp only [pushUpdate_calls]
  rw [uploadFirmware_calls]
  simp [uploadingState]

lemma runDeviceFromUpload_succeeds (ip : String) (env : DeviceEnv)
    (st : DriverState) (h2 : uploadAccepted env.upload.outcome = true)
    (h3 : installAccepted env.install = true)
    (h4 : pollListSucceeds env.polls = true) :
    (runDeviceFromUpload ip env st).entry.status = .update_complete ∧
    (runDeviceFromUpload ip env st).entry.progress = 100 := by
  rw [runDeviceFromUpload_eq_poll ip env st h2 h3]
  exact pollRun_succeeds ip env.polls _
    (installTriggerState_status ip env st h3) h4

lemma runDeviceFromUpload_terminates (ip : String) (env : DeviceEnv)
    (st : DriverState) (h : deviceRunTerminates env = true)
    (hpre : precheckPasses env.preCheck = true) :
    (runDeviceFromUpload ip env st).entry.status = .update_failed ∨
    (runDeviceFromUpload ip env st).entry.status = .update_complete := by
  by_cases h2 : uploadAccepted env.upload.outcome = true
  · by_cases h3 : installAccepted env.install = true
    · rw [runDeviceFromUpload_eq_poll ip env st h2 h3]
      have hany : env.polls.any terminalPoll = true := by
        simp only [deviceRunTerminates, hpre, h2, h3, Bool.not_true,
          Bool.false_or, Bool.or_eq_true] at h
        exact h
      rcases pollRun_terminates ip env.polls _
          (installTriggerState_status ip env st h3) hany with hc | hc
      · exact Or.inr hc
      · exact Or.inl hc
    · simp only [Bool.not_eq_true] at h3
      rw [runDeviceFromUpload_eq_installFail ip env st h2 h3]
      left
      exact startCameraInstall_fail_status ip env.install env.installErrorText _ h3
  · simp only [Bool.not_eq_true] at h2
    exact Or.inl (runDeviceFromUpload_upload_fail ip env st h2).1

/-- The driver state right after the passing pre-update check. -/
def precheckedState (e : CameraEntry) : DriverState :=
  addCall
    (pushUpdate (DriverState.init e)
      { status := some .connecting, message := some "Verifying connection..." })
    (.getStatus e.ip)

lemma runDevice_precheck_fail (e : CameraEntry) (env : DeviceEnv)
    (h : precheckPasses env.preCheck = false) :
    (runDevice e env).entry.status = .update_failed ∧
    (runDevice e env).calls = [.getStatus e.ip] := by
  cases hpc : env.preCheck with
  | response s =>
      rw [hpc] at h
      have h1 : resOk s = false := by
        by_contra hx
        simp only [Bool.not_eq_true] at hx
        simp [precheckPasses, hx] at h
      have h2 : s ≠ 404 := by
        intro hx
        simp [precheckPasses, hx] at h
      have hcond : (!resOk s && decide (s ≠ 404)) = true := by
        simp [h1, h2]
      simp only [runDevice, hpc]
      rw [if_pos (by simp [h1, h2])]
      constructor
      · simp [applyUpdates]
      · simp [DriverState.init]
  | timeout => simp [runDevice, hpc, applyUpdates, DriverState.init]
  | netError => simp [runDevice, hpc, applyUpdates, DriverState.init]

lemma runDevice_eq_fromUpload (e : CameraEntry) (env : DeviceEnv)
    (h : precheckPasses env.preCheck = true) :
    runDevice e env = runDeviceFromUpload e.ip env (precheckedState e) := by
  cases hpc : env.preCheck with
  | response s =>
      rw [hpc] at h
      simp only [precheckPasses, Bool.or_eq_true, beq_iff_eq] at h
      simp only [runDevice, hpc, precheckedState]
      rw [if_neg]
      rcases h with h | h
      · simp [h]
      · simp [h]
  | timeout => rw [hpc] at h; simp [precheckPasses] at h
  | netError => rw [hpc] at h; simp [precheckPasses] at h

lemma runDevice_terminates (e : CameraEntry) (env : DeviceEnv)
    (h : deviceRunTerminates env = true) :
    (runDevice e env).entry.status = .update_failed ∨
    (runDevice e env).entry.status = .update_complete := by
  by_cases hpre : precheckPasses env.preCheck = true
  · rw [runDevice_eq_fromUpload e env hpre]
    exact runDeviceFromUpload_terminates e.ip env _ h hpre
  · simp only [Bool.not_eq_true] at hpre
    exact Or.inl (runDevice_precheck_fail e env hpre).1

lemma runDevice_succeeds (e : CameraEntry) (env : DeviceEnv)
    (h : deviceEnvSucceeds env = true) :
    (runDevice e env).entry.status = .update_complete ∧
    (runDevice e env).entry.progress = 100 := by
  simp only [deviceEnvSucceeds, Bool.and_eq_true] at h
  rcases h with ⟨⟨⟨h1, h2⟩, h3⟩, h4⟩
  rw [runDevice_eq_fromUpload e env h1]
  exact runDeviceFromUpload_succeeds e.ip env _ h2 h3 h4

lemma runDevice_upload_fail (e : CameraEntry) (env : DeviceEnv)
    (hpre : precheckPasses env.preCheck = true)
    (h : uploadAccepted env.upload.outcome = false) :
    (runDevice e env).entry.status = .update_failed ∧
    (runDevice e env).calls = [.getStatus e.ip, .postUpload e.ip] := by
  rw [runDevice_eq_fromUpload e env hpre]
  have h1 := runDeviceFromUpload_upload_fail e.ip env (precheckedState e) h
  refine ⟨h1.1, ?_⟩
  rw [h1.2.2]
  simp [precheckedState, DriverState.init]

lemma runDevice_calls_postUpload (e : CameraEntry) (env : DeviceEnv)
    (hpre : precheckPasses env.preCheck = true) :
    NetworkCall.postUpload e.ip ∈ (runDevice e env).calls := by
  rw [runDevice_eq_fromUpload e env hpre]
  by_cases h2 : uploadAccepted env.upload.outcome = true
  · have hmem : NetworkCall.postUpload e.ip ∈
        (installTriggerState e.ip env (precheckedState e)).calls := by
      rw [installTriggerState_calls]
      simp
    by_cases h3 : installAccepted env.install = true
    · rw [runDeviceFromUpload_eq_poll e.ip env _ h2 h3]
      exact pollRun_calls_mono e.ip env.polls _ _ hmem
    · simp only [Bool.not_eq_true] at h3
      rw [runDeviceFromUpload_eq_installFail e.ip env _ h2 h3]
      exact hmem
  · simp only [Bool.not_eq_true] at h2
    have h1 := runDeviceFromUpload_upload_fail e.ip env (precheckedState e) h2
    rw [h1.2.2]
    simp

lemma runDevice_no_postStart_of_upload_fail (e : CameraEntry) (env : DeviceEnv)
    (h : uploadAccepted env.upload.outcome = false) :
    NetworkCall.postStart e.ip ∉ (runDevice e env).calls := by
  by_cases hpre : precheckPasses env.preCheck = true
  · have h1 := runDevice_upload_fail e env hpre h
    rw [h1.2]
    simp
  · simp only [Bool.not_eq_true] at hpre
    have h1 := runDevice_precheck_fail e env hpre
    rw [h1.2]
    simp

lemma runDevice_calls_postStart (e : CameraEntry) (env : DeviceEnv)
    (hpre : precheckPasses env.preCheck = true)
    (h2 : uploadAccepted env.upload.outcome = true) :
    NetworkCall.postStart e.ip ∈ (runDevice e env).calls := by
  rw [runDevice_eq_fromUpload e env hpre]
  have hmem : NetworkCall.postStart e.ip ∈
      (installTriggerState e.ip env (precheckedState e)).calls := by
    rw [installTriggerState_calls]
    simp
  by_cases h3 : installAccepted env.install = true
  · rw [runDeviceFromUpload_eq_poll e.ip env _ h2 h3]
    exact pollRun_calls_mono e.ip env.polls _ _ hmem
  · simp only [Bool.not_eq_true] at h3
    rw [runDeviceFromUpload_eq_installFail e.ip env _ h2 h3]
    exact hmem

/-! ### Concrete fixtures used by witnesses and counterexamples -/

/-- A connected device entry. -/
def wEntryA : CameraEntry :=
  { id := "cam-a", ip := "10.0.0.1", status := .connected, progress := 0, message := "" }

/-- A second connected device entry. -/
def wEntryB : CameraEntry :=
  { id := "cam-b", ip := "10.0.0.2", status := .connected, progress := 0, message := "" }

/-- An environment in which every step succeeds; the device reports
progress 80, then 30, then finished. -/
def wEnvOk : DeviceEnv :=
  { preCheck := .response 200
    upload := { events := [(50, 100)], outcome := .loaded 200 "" }
    install := .response 200
    installErrorText := ""
    polls := [.reply 200 { status := .in_progress, progress := some 80 },
              .reply 200 { status := .in_progress, progress := some 30 },
              .reply 200 { status := .finished }] }

/-- An environment whose upload is rejected with HTTP 500 after one
40 percent progress event. -/
def wEnvUploadFail : DeviceEnv :=
  { preCheck := .response 200
    upload := { events := [(40, 100)], outcome := .loaded 500 "oops" }
    install := .response 200
    installErrorText := ""
    polls := [] }

/-- Helper: an upload failing in the claim sense is not accepted. -/
lemma uploadAccepted_false_of_fails (o : UploadOutcome)
    (h : uploadFailsPerClaim o = true) : uploadAccepted o = false := by
  cases o with
  | loaded s txt =>
      simp only [uploadFailsPerClaim, Bool.not_eq_true'] at h
      have : s ≠ 200 := by
        intro hs
        rw [hs] at h
        simp [resOk] at h
      simp [uploadAccepted, this]
  | netError => rfl
  | aborted => rfl
  | timedOut => rfl

/-! ### C2 -/

/-- C2 (confirmed).  In a batch of two eligible devices A then B where
A's upload fails (non-2xx load, abort, or transport error, after a
passing pre-check) and every step of B succeeds, the batch still runs B
to completion: the final statuses are A = `update_failed` and
B = `update_complete`, and B's upload request is actually made.  The
batch loop is a total function of the environments: no failure of A can
raise out of it. -/
theorem c2_failure_isolation (a b : CameraEntry) (envA envB : DeviceEnv)
    (hid : a.id ≠ b.id)
    (ha : eligibleEntry a = true) (hb : eligibleEntry b = true)
    (haPre : precheckPasses envA.preCheck = true)
    (haUp : uploadFailsPerClaim envA.upload.outcome = true)
    (hbOk : deviceEnvSucceeds envB = true) :
    (runBatch [a, b] fun i => if i = a.id then envA else envB).map
        CameraEntry.status = [.update_failed, .update_complete] ∧
    NetworkCall.postUpload b.ip ∈
      (processEntry (fun i => if i = a.id then envA else envB) b).calls := by
  have henvA : (if a.id = a.id then envA else envB) = envA := if_pos rfl
  have henvB : (if b.id = a.id then envA else envB) = envB :=
    if_neg fun hx => hid hx.symm
  have hbPre : precheckPasses envB.preCheck = true := by
    simp only [deviceEnvSucceeds, Bool.and_eq_true] at hbOk
    exact hbOk.1.1.1
  have hAstatus := (runDevice_upload_fail a envA haPre
    (uploadAccepted_false_of_fails envA.upload.outcome haUp)).1
  have hBstatus := (runDevice_succeeds b envB hbOk).1
  constructor
  · simp only [runBatch, List.map_cons, List.map_nil, List.map_map]
    simp only [processEntry, ha, hb, if_true, henvA, henvB, Function.comp]
    rw [hAstatus, hBstatus]
  · simp only [processEntry, hb, if_true]
    rw [henvB]
    exact runDevice_calls_postUpload b envB hbPre

/-- Witness for C2 at the concrete two-camera batch: A's upload returns
HTTP 500, B succeeds. -/
theorem c2_failure_isolation_witness :
    (runBatch [wEntryA, wEntryB]
        fun i => if i = wEntryA.id then wEnvUploadFail else wEnvOk).map
      CameraEntry.status = [.update_failed, .update_complete] :=
  (c2_failure_isolation wEntryA wEntryB wEnvUploadFail wEnvOk
    (by decide) (by decide) (by decide) (by decide) (by decide) (by decide)).1

/-! ### C7 -/

/-- C7 (confirmed).  During the install-polling phase: an ok response
whose body reports `finished` or `reboot_required` moves the device to
`update_complete` with progress 100 and stops the interval; a body
reporting `error` moves it to `update_failed` and stops; a non-2xx
response or a network error leaves the status unchanged and the interval
keeps running; the interval is cleared exactly on a device-reported
terminal status, so a sequence of transient failures leaves the device
still `installing`. -/
theorem c7_poll_semantics :
    (∀ (ip : String) (o : PollOutcome) (st : DriverState),
        st.entry.status = .installing → (pollTick ip o st).2 = terminalPoll o) ∧
    (∀ (ip : String) (s : Nat) (body : InstallStatusResp) (st : DriverState),
        st.entry.status = .installing → resOk s = true →
        body.status = .finished ∨ body.status = .reboot_required →
        (pollTick ip (.reply s body) st).1.entry.status = .update_complete ∧
        (pollTick ip (.reply s body) st).1.entry.progress = 100) ∧
    (∀ (ip : String) (s : Nat) (body : InstallStatusResp) (st : DriverState),
        st.entry.status = .installing → resOk s = true → body.status = .error →
        (pollTick ip (.reply s body) st).1.entry.status = .update_failed) ∧
    (∀ (ip : String) (s : Nat) (body : InstallStatusResp) (st : DriverState),
        resOk s = false →
        (pollTick ip (.reply s body) st).1.entry.status = st.entry.status ∧
        (pollTick ip (.reply s body) st).2 = false) ∧
    (∀ (ip : String) (st : DriverState),
        (pollTick ip .netError st).1.entry.status = st.entry.status ∧
        (pollTick ip .netError st).2 = false) ∧
    (∀ (ip : String) (outs : List PollOutcome) (st : DriverState),
        st.entry.status = .installing →
        (∀ o ∈ outs, terminalPoll o = false) →
        (pollRun ip outs st).entry.status = .installing) := by
  refine ⟨?_, ?_, ?_, ?_, ?_, ?_⟩
  · intro ip o st _
    exact pollTick_snd ip o st
  · intro ip s body st _ hs hb
    exact pollTick_success_entry ip s body st hs hb
  · intro ip s body st _ hs hb
    exact pollTick_error_entry ip s body st hs hb
  · intro ip s body st hs
    refine ⟨(pollTick_transient_entry ip s body st hs).1, ?_⟩
    rw [pollTick_snd]
    simp [terminalPoll, hs]
  · intro ip st
    refine ⟨(pollTick_netError_entry ip st).1, ?_⟩
    rw [pollTick_snd]
    rfl
  · intro ip outs st h hall
    exact pollRun_transient ip outs st h hall

/-- Witness for C7 at concrete poll outcomes on an installing entry. -/
theorem c7_poll_semantics_witness :
    (pollTick "10.0.0.1" (.reply 200 { status := .finished })
        (DriverState.init { wEntryA with status := .installing })).1.entry.status =
      .update_complete ∧
    (pollTick "10.0.0.1" (.reply 500 { status := .started })
        (DriverState.init { wEntryA with status := .installing })).1.entry.status =
      .installing ∧
    (pollRun "10.0.0.1" [.netError, .reply 503 { status := .started }]
        (DriverState.init { wEntryA with status := .installing })).entry.status =
      .installing :=
  ⟨(c7_poll_semantics.2.1 "10.0.0.1" 200 { status := .finished }
      (DriverState.init { wEntryA with status := .installing })
      rfl (by decide) (Or.inl rfl)).1,
   (c7_poll_semantics.2.2.2.1 "10.0.0.1" 500 { status := .started }
      (DriverState.init { wEntryA with status := .installing }) (by decide)).1,
   c7_poll_semantics.2.2.2.2.2 "10.0.0.1"
      [.netError, .reply 503 { status := .started }]
      (DriverState.init { wEntryA with status := .installing })
      rfl (by decide)⟩

/-! ### C8 -/

/-- C8 (counterexample).  HTTP 201 is in the 2xx range, yet the upload
driver treats it as a failure: only `xhr.status === 200` is accepted
(source part_000 line 217), so the claim that every 2xx response is
accepted is false. -/
theorem c8_upload_201_counterexample :
    resOk 201 = true ∧
    (uploadFirmware "10.0.0.1" { events := [], outcome := .loaded 201 "Created" }
        (DriverState.init wEntryA)).2 = false ∧
    (uploadFirmware "10.0.0.1" { events := [], outcome := .loaded 201 "Created" }
        (DriverState.init wEntryA)).1.entry.status = .update_failed := by
  refine ⟨by decide, by decide, by decide⟩

/-- C8 (amended).  An upload is accepted exactly when the load status is
exactly 200 (other 2xx statuses are failures); on acceptance the driver
proceeds to the install trigger; any other load status, an abort, or a
transport error moves the device to `update_failed` with progress 0, a
non-200 load captures the response body (or "Server error" when empty)
in the message, and the install trigger is never invoked after an upload
failure. -/
theorem c8_upload_accept_amended :
    (∀ (ip : String) (env : UploadEnv) (st : DriverState),
        ((uploadFirmware ip env st).2 = true ↔
          ∃ txt, env.outcome = .loaded 200 txt)) ∧
    (∀ (ip : String) (env : UploadEnv) (st : DriverState),
        (uploadFirmware ip env st).2 = false →
        (uploadFirmware ip env st).1.entry.status = .update_failed ∧
        (uploadFirmware ip env st).1.entry.progress = 0) ∧
    (∀ (ip : String) (st : DriverState) (s : Nat) (txt : String)
        (evs : List (Nat × Nat)), s ≠ 200 →
        (uploadFirmware ip { events := evs, outcome := .loaded s txt }
            st).1.entry.message =
          "Upload failed (HTTP " ++ toString s ++ ": "
            ++ (if txt = "" then "Server error" else txt) ++ ")") ∧
    (∀ (e : CameraEntry) (env : DeviceEnv),
        uploadAccepted env.upload.outcome = false →
        NetworkCall.postStart e.ip ∉ (runDevice e env).calls) ∧
    (∀ (e : CameraEntry) (env : DeviceEnv),
        precheckPasses env.preCheck = true →
        uploadAccepted env.upload.outcome = true →
        NetworkCall.postStart e.ip ∈ (runDevice e env).calls) := by
  refine ⟨?_, ?_, ?_, ?_, ?_⟩
  · intro ip env st
    rw [uploadFirmware_snd]
    cases ho : env.outcome with
    | loaded s txt =>
        constructor
        · intro h
          simp only [uploadAccepted, beq_iff_eq] at h
          exact ⟨txt, by rw [h]⟩
        · rintro ⟨txt2, h2⟩
          cases h2
          rfl
    | netError => simp [uploadAccepted]
    | aborted => simp [uploadAccepted]
    | timedOut => simp [uploadAccepted]
  · intro ip env st h
    rw [uploadFirmware_snd] at h
    exact uploadFirmware_fail_status ip env st h
  · intro ip st s txt evs h
    simp [uploadFirmware, h, applyUpdates]
  · intro e env h
    exact runDevice_no_postStart_of_upload_fail e env h
  · intro e env hpre h2
    exact runDevice_calls_postStart e env hpre h2

/-- Witness for C8 (amended) at concrete outcomes: a 200 load is
accepted, a 500 load fails with the body in the message, and the failed
device makes no install-trigger call. -/
theorem c8_upload_accept_amended_witness :
    (uploadFirmware "10.0.0.1" { events := [], outcome := .loaded 200 "ok" }
        (DriverState.init wEntryA)).2 = true ∧
    (uploadFirmware "10.0.0.1" { events := [(40, 100)], outcome := .loaded 500 "oops" }
        (DriverState.init wEntryA)).1.entry.message =
      "Upload failed (HTTP " ++ toString 500 ++ ": "
        ++ (if ("oops" : String) = "" then "Server error" else "oops") ++ ")" ∧
    NetworkCall.postStart wEntryA.ip ∉ (runDevice wEntryA wEnvUploadFail).calls :=
  ⟨((c8_upload_accept_amended.1 "10.0.0.1"
      { events := [], outcome := .loaded 200 "ok" }
      (DriverState.init wEntryA)).2 ⟨"ok", rfl⟩),
   (c8_upload_accept_amended.2.2.1 "10.0.0.1" (DriverState.init wEntryA)
      500 "oops" [(40, 100)] (by decide)),
   (c8_upload_accept_amended.2.2.2.1 wEntryA wEnvUploadFail (by decide))⟩

/-! ### Patch-shape lemmas for the progress invariant (C9) -/

/-- Every patch that begins a sub-phase (sets status `uploading` or
`installing`) also resets progress to 0. -/
def subphaseZeroOp (u : EntryUpdates) : Prop :=
  (u.status = some .uploading ∨ u.status = some .installing) →
    u.progress = some 0

lemma subphaseZeroOp_of_status_none {u : EntryUpdates}
    (h : u.status = none) : subphaseZeroOp u := by
  intro hc
  rcases hc with hc | hc <;> rw [h] at hc <;> exact absurd hc (by simp)

lemma subphaseZeroOp_of_failed {u : EntryUpdates}
    (h : u.status = some .update_failed) : subphaseZeroOp u := by
  intro hc
  rcases hc with hc | hc <;> rw [h] at hc <;> exact absurd hc (by simp)

lemma subphaseZeroOp_of_complete {u : EntryUpdates}
    (h : u.status = some .update_complete) : subphaseZeroOp u := by
  intro hc
  rcases hc with hc | hc <;> rw [h] at hc <;> exact absurd hc (by simp)

lemma uploadFirmware_ops_mem (ip : String) (env : UploadEnv)
    (st : DriverState) (u : EntryUpdates)
    (h : u ∈ (uploadFirmware ip env st).1.ops) :
    u ∈ st.ops ∨ u.status = none ∨ u.status = some .update_failed := by
  have hstep : ∀ (u2 : EntryUpdates),
      u2 ∈ (applyUploadEvents (addCall st (.postUpload ip)) env.events).ops →
      u2 ∈ st.ops ∨ u2.status = none := by
    intro u2 h2
    rcases applyUploadEvents_ops env.events _ u2 h2 with h3 | h3
    · exact Or.inl (by simpa using h3)
    · exact Or.inr h3
  cases ho : env.outcome with
  | loaded s txt =>
      by_cases hs : s = 200
      · subst hs
        rw [show uploadFirmware ip env st =
            (pushUpdate (applyUploadEvents (addCall st (.postUpload ip)) env.events)
              { progress := some 100
                message := some "Upload complete. Preparing to install." }, true)
          from by simp [uploadFirmware, ho]] at h
        simp only [pushUpdate_ops, List.mem_append, List.mem_singleton] at h
        rcases h with h | h
        · rcases hstep u h with h2 | h2
          · exact Or.inl h2
          · exact Or.inr (Or.inl h2)
        · subst h; exact Or.inr (Or.inl rfl)
      · rw [show uploadFirmware ip env st =
            (pushUpdate (applyUploadEvents (addCall st (.postUpload ip)) env.events)
              { status := some .update_failed, progress := some 0
                message := some ("Upload failed (HTTP " ++ toString s ++ ": "
                  ++ (if txt = "" then "Server error" else txt) ++ ")") }, false)
          from by simp [uploadFirmware, ho, hs]] at h
        simp only [pushUpdate_ops, List.mem_append, List.mem_singleton] at h
        rcases h with h | h
        · rcases hstep u h with h2 | h2
          · exact Or.inl h2
          · exact Or.inr (Or.inl h2)
        · subst h; exact Or.inr (Or.inr rfl)
  | netError =>
      rw [show uploadFirmware ip env st =
          (pushUpdate (applyUploadEvents (addCall st (.postUpload ip)) env.events)
            { status := some .update_failed, progress := some 0
              message := some "Network error during upload. Check CORS and camera connectivity." },
           false)
        from by simp [uploadFirmware, ho]] at h
      simp only [pushUpdate_ops, List.mem_append, List.mem_singleton] at h
      rcases h with h | h
      · rcases hstep u h with h2 | h2
        · exact Or.inl h2
        · exact Or.inr (Or.inl h2)
      · subst h; exact Or.inr (Or.inr rfl)
  | aborted =>
      rw [show uploadFirmware ip env st =
          (pushUpdate (applyUploadEvents (addCall st (.postUpload ip)) env.events)
            { status := some .update_failed, progress := some 0
              message := some "Upload aborted." }, false)
        from by simp [uploadFirmware, ho]] at h
      simp only [pushUpdate_ops, List.mem_append, List.mem_singleton] at h
      rcases h with h | h
      · rcases hstep u h with h2 | h2
        · exact Or.inl h2
        · exact Or.inr (Or.inl h2)
      · subst h; exact Or.inr (Or.inr rfl)
  | timedOut =>
      rw [show uploadFirmware ip env st =
          (pushUpdate (applyUploadEvents (addCall st (.postUpload ip)) env.events)
            { status := some .update_failed, progress := some 0
              message := some "Upload timed out." }, false)
        from by simp [uploadFirmware, ho]] at h
      simp only [pushUpdate_ops, List.mem_append, List.mem_singleton] at h
      rcases h with h | h
      · rcases hstep u h with h2 | h2
        · exact Or.inl h2
        · exact Or.inr (Or.inl h2)
      · subst h; exact Or.inr (Or.inr rfl)

lemma startCameraInstall_ops_mem (ip : String) (o : HttpOutcome) (txt : String)
    (st : DriverState) (u : EntryUpdates)
    (h : u ∈ (startCameraInstall ip o txt st).1.ops) :
    u ∈ st.ops ∨ u.status = none ∨ u.status = some .update_failed := by
  cases o with
  | response s =>
      by_cases hs : resOk s = true
      · rw [show startCameraInstall ip (.response s) txt st =
            (pushUpdate (addCall st (.postStart ip))
              { message := some "Installation process initiated." }, true)
          from by simp [startCameraInstall, hs]] at h
        simp only [pushUpdate_ops, addCall_ops, List.mem_append,
          List.mem_singleton] at h
        rcases h with h | h
        · exact Or.inl h
        · subst h; exact Or.inr (Or.inl rfl)
      · simp only [Bool.not_eq_true] at hs
        rw [show startCameraInstall ip (.response s) txt st =
            (pushUpdate (addCall st (.postStart ip))
              { status := some .update_failed
                message := some ("Failed to start install (HTTP " ++ toString s
                  ++ "): " ++ txt) }, false)
          from by simp [startCameraInstall, hs]] at h
        simp only [pushUpdate_ops, addCall_ops, List.mem_append,
          List.mem_singleton] at h
        rcases h with h | h
        · exact Or.inl h
        · subst h; exact Or.inr (Or.inr rfl)
  | timeout =>
      simp only [startCameraInstall, pushUpdate_ops, addCall_ops,
        List.mem_append, List.mem_singleton] at h
      rcases h with h | h
      · exact Or.inl h
      · subst h; exact Or.inr (Or.inr rfl)
  | netError =>
      simp only [startCameraInstall, pushUpdate_ops, addCall_ops,
        List.mem_append, List.mem_singleton] at h
      rcases h with h | h
      · exact Or.inl h
      · subst h; exact Or.inr (Or.inr rfl)

lemma pollTick_ops_mem (ip : String) (o : PollOutcome) (st : DriverState)
    (u : EntryUpdates) (h : u ∈ (pollTick ip o st).1.ops) :
    u ∈ st.ops ∨ u.status = none ∨ u.status = some .update_complete ∨
      u.status = some .update_failed := by
  cases o with
  | netError =>
      simp only [pollTick, pushUpdate_ops, addCall_ops, List.mem_append,
        List.mem_singleton] at h
      rcases h with h | h
      · exact Or.inl h
      · subst h; exact Or.inr (Or.inl rfl)
  | reply s body =>
      by_cases hs : resOk s = true
      · cases hb : body.status with
        | started =>
            simp only [pollTick, hs, hb, Bool.not_true, Bool.false_eq_true,
              if_false, pushUpdate_ops, addCall_ops, List.mem_append,
              List.mem_singleton] at h
            rcases h with h | h
            · exact Or.inl h
            · subst h; exact Or.inr (Or.inl rfl)
        | in_progress =>
            simp only [pollTick, hs, hb, Bool.not_true, Bool.false_eq_true,
              if_false, pushUpdate_ops, addCall_ops, List.mem_append,
              List.mem_singleton] at h
            rcases h with h | h
            · exact Or.inl h
            · subst h; exact Or.inr (Or.inl rfl)
        | finished =>
            simp only [pollTick, hs, hb, Bool.not_true, Bool.false_eq_true,
              if_false, pushUpdate_ops, addCall_ops, List.mem_append,
              List.mem_singleton] at h
            rcases h with (h | h) | h
            · exact Or.inl h
            · subst h; exact Or.inr (Or.inl rfl)
            · subst h; exact Or.inr (Or.inr (Or.inl rfl))
        | reboot_required =>
            simp only [pollTick, hs, hb, Bool.not_true, Bool.false_eq_true,
              if_false, pushUpdate_ops, addCall_ops, List.mem_append,
              List.mem_singleton] at h
            rcases h with (h | h) | h
            · exact Or.inl h
            · subst h; exact Or.inr (Or.inl rfl)
            · subst h; exact Or.inr (Or.inr (Or.inl rfl))
        | error =>
            simp only [pollTick, hs, hb, Bool.not_true, Bool.false_eq_true,
              if_false, pushUpdate_ops, addCall_ops, List.mem_append,
              List.mem_singleton] at h
            rcases h with (h | h) | h
            · exact Or.inl h
            · subst h; exact Or.inr (Or.inl rfl)
            · subst h; exact Or.inr (Or.inr (Or.inr rfl))
      · simp only [Bool.not_eq_true] at hs
        simp only [pollTick, hs, Bool.not_false, if_true, pushUpdate_ops,
          addCall_ops, List.mem_append, List.mem_singleton] at h
        rcases h with h | h
        · exact Or.inl h
        · subst h; exact Or.inr (Or.inl rfl)

lemma pollRun_ops_mem (ip : String) (outs : List PollOutcome) :
    ∀ (st : DriverState) (u : EntryUpdates),
      u ∈ (pollRun ip outs st).ops →
      u ∈ st.ops ∨ u.status = none ∨ u.status = some .update_complete ∨
        u.status = some .update_failed := by
  induction outs with
  | nil => intro st u h; exact Or.inl (by simpa [pollRun] using h)
  | cons o rest ih =>
      intro st u h
      by_cases hp : pollableStatus st.entry.status = true
      · simp only [pollRun, hp, if_true] at h
        rcases hpt : pollTick ip o st with ⟨st1, stop⟩
        rw [hpt] at h
        have hst1 : ∀ u2 ∈ st1.ops,
            u2 ∈ st.ops ∨ u2.status = none ∨ u2.status = some .update_complete ∨
              u2.status = some .update_failed := by
          intro u2 h2
          have := pollTick_ops_mem ip o st u2
          rw [hpt] at this
          exact this h2
        cases stop
        · simp only at h
          rcases ih st1 u h with h2 | h2
          · exact hst1 u h2
          · exact Or.inr h2
        · simp only at h
          exact hst1 u h
      · simp only [Bool.not_eq_true] at hp
        simp only [pollRun, hp, Bool.false_eq_true, if_false] at h
        by_cases hf : (st.entry.status == CameraUpdateStatus.update_failed) = true
        · rw [if_pos hf] at h
          simp only [pushUpdate_ops, List.mem_append, List.mem_singleton] at h
          rcases h with h | h
          · exact Or.inl h
          · subst h; exact Or.inr (Or.inl rfl)
        · simp only [Bool.not_eq_true] at hf
          rw [if_neg (by simp [hf])] at h
          exact Or.inl h

/-- Every `updateCameraEntry` patch issued by a device run that begins a
sub-phase (sets status `uploading` or `installing`) carries
`progress := 0`. -/
lemma runDevice_ops_subphaseZero (e : CameraEntry) (env : DeviceEnv) :
    ∀ u ∈ (runDevice e env).ops, subphaseZeroOp u := by
  intro u h
  by_cases hpre : precheckPasses env.preCheck = true
  · rw [runDevice_eq_fromUpload e env hpre] at h
    have hpc : ∀ u2 ∈ (precheckedState e).ops, subphaseZeroOp u2 := by
      intro u2 h2
      simp only [precheckedState, addCall_ops, pushUpdate_ops,
        DriverState.init, List.nil_append, List.mem_singleton] at h2
      subst h2
      intro hc
      rcases hc with hc | hc <;> exact absurd hc (by simp)
    have hupl : ∀ u2 ∈ (uploadFirmware e.ip env.upload
        (uploadingState (precheckedState e))).1.ops, subphaseZeroOp u2 := by
      intro u2 h2
      rcases uploadFirmware_ops_mem e.ip env.upload _ u2 h2 with h3 | h3 | h3
      · simp only [uploadingState, pushUpdate_ops, List.mem_append,
          List.mem_singleton] at h3
        rcases h3 with h4 | h4
        · exact hpc u2 h4
        · subst h4; intro _; rfl
      · exact subphaseZeroOp_of_status_none h3
      · exact subphaseZeroOp_of_failed h3
    have hins : ∀ u2 ∈ (installTriggerState e.ip env
        (precheckedState e)).ops, subphaseZeroOp u2 := by
      intro u2 h2
      rcases startCameraInstall_ops_mem e.ip env.install env.installErrorText
          _ u2 (by simpa [installTriggerState] using h2) with h3 | h3 | h3
      · simp only [pushUpdate_ops, List.mem_append, List.mem_singleton] at h3
        rcases h3 with h4 | h4
        · exact hupl u2 h4
        · subst h4; intro _; rfl
      · exact subphaseZeroOp_of_status_none h3
      · exact subphaseZeroOp_of_failed h3
    by_cases h2 : uploadAccepted env.upload.outcome = true
    · by_cases h3 : installAccepted env.install = true
      · rw [runDeviceFromUpload_eq_poll e.ip env _ h2 h3] at h
        rcases pollRun_ops_mem e.ip env.polls _ u h with h4 | h4 | h4 | h4
        · exact hins u h4
        · exact subphaseZeroOp_of_status_none h4
        · exact subphaseZeroOp_of_complete h4
        · exact subphaseZeroOp_of_failed h4
      · simp only [Bool.not_eq_true] at h3
        rw [runDeviceFromUpload_eq_installFail e.ip env _ h2 h3] at h
        exact hins u h
    · simp only [Bool.not_eq_true] at h2
      rw [runDeviceFromUpload_eq_fail e.ip env _ h2] at h
      exact hupl u h
  · simp only [Bool.not_eq_true] at hpre
    cases hpc : env.preCheck with
    | response s =>
        rw [hpc] at hpre
        have h1 : resOk s = false := by
          by_contra hx
          simp only [Bool.not_eq_true] at hx
          simp [precheckPasses, hx] at hpre
        have h2 : s ≠ 404 := by
          intro hx
          simp [precheckPasses, hx] at hpre
        simp only [runDevice, hpc] at h
        rw [if_pos (by simp [h1, h2])] at h
        simp only [pushUpdate_ops, addCall_ops, DriverState.init,
          List.nil_append, List.mem_append, List.mem_singleton] at h
        rcases h with h | h
        · subst h
          intro hc
          rcases hc with hc | hc <;> exact absurd hc (by simp)
        · subst h
          exact subphaseZeroOp_of_failed rfl
    | timeout =>
        simp only [runDevice, hpc, pushUpdate_ops, addCall_ops,
          DriverState.init, List.nil_append, List.mem_append,
          List.mem_singleton] at h
        rcases h with h | h
        · subst h
          intro hc
          rcases hc with hc | hc <;> exact absurd hc (by simp)
        · subst h
          exact subphaseZeroOp_of_failed rfl
    | netError =>
        simp only [runDevice, hpc, pushUpdate_ops, addCall_ops,
          DriverState.init, List.nil_append, List.mem_append,
          List.mem_singleton] at h
        rcases h with h | h
        · subst h
          intro hc
          rcases hc with hc | hc <;> exact absurd hc (by simp)
        · subst h
          exact subphaseZeroOp_of_failed rfl

/-- On an accepted upload the trace states appended during the upload
phase carry exactly the rounded event percentages followed by 100. -/
lemma uploadFirmware_success_traceProgress (ip : String) (env : UploadEnv)
    (st : DriverState) (h : uploadAccepted env.outcome = true) :
    ((uploadFirmware ip env st).1.trace.drop st.trace.length).map
        CameraEntry.progress =
      (env.events.map fun ev => uploadPct ev.1 ev.2) ++ [100] := by
  cases ho : env.outcome with
  | loaded s txt =>
      rw [ho] at h
      simp only [uploadAccepted, beq_iff_eq] at h
      subst h
      rw [show uploadFirmware ip env st =
          (pushUpdate (applyUploadEvents (addCall st (.postUpload ip)) env.events)
            { progress := some 100
              message := some "Upload complete. Preparing to install." }, true)
        from by simp [uploadFirmware, ho]]
      simp only [pushUpdate_trace]
      rw [applyUploadEvents_trace]
      simp only [addCall_trace, addCall_entry]
      rw [List.append_assoc, List.drop_left, List.map_append,
        uploadStates_progress]
      simp [applyUpdates]
  | netError => rw [ho] at h; simp [uploadAccepted] at h
  | aborted => rw [ho] at h; simp [uploadAccepted] at h
  | timedOut => rw [ho] at h; simp [uploadAccepted] at h

/-! ### C9 -/

/-- C9 (counterexample).  The device may report decreasing progress
during the installing phase and the driver copies it verbatim: polling
`{in_progress, progress: 80}` then `{in_progress, progress: 30}` makes
the entry progress drop from 80 to 30 inside one installing sub-phase.
Also, a failed upload resets progress to 0 (after reaching 40) although
no new sub-phase begins there. -/
theorem c9_progress_counterexample :
    (((runDevice wEntryA wEnvOk).trace.map fun s => (s.status, s.progress))[6]? =
      some (.installing, 80)) ∧
    (((runDevice wEntryA wEnvOk).trace.map fun s => (s.status, s.progress))[7]? =
      some (.installing, 30)) ∧
    (30 : Nat) < 80 ∧
    ((runDevice wEntryA wEnvUploadFail).trace.map fun s => (s.status, s.progress)) =
      [(.connecting, 0), (.uploading, 0), (.uploading, 40), (.update_failed, 0)] := by
  refine ⟨by decide, by decide, by decide, by decide⟩

/-- C9 (amended).  Progress is reset to 0 by every patch that begins a
sub-phase (every issued patch setting status `uploading` or `installing`
carries progress 0), and also when the upload fails.  Within the
uploading sub-phase the progress values written are exactly the rounded
percentages of the byte-progress events followed by 100, so they are
non-decreasing whenever the event percentages are non-decreasing and
bounded by 100.  Within the installing sub-phase the driver copies the
device-reported progress value verbatim, so monotonicity holds only if
the device reports non-decreasing values. -/
theorem c9_progress_amended :
    (∀ (e : CameraEntry) (env : DeviceEnv) (u : EntryUpdates),
        u ∈ (runDevice e env).ops →
        (u.status = some .uploading ∨ u.status = some .installing) →
        u.progress = some 0) ∧
    (∀ (ip : String) (env : UploadEnv) (st : DriverState),
        uploadAccepted env.outcome = true →
        ((uploadFirmware ip env st).1.trace.drop st.trace.length).map
            CameraEntry.progress =
          (env.events.map fun ev => uploadPct ev.1 ev.2) ++ [100]) ∧
    (∀ ps : List Nat, List.Chain' (· ≤ ·) ps → (∀ p ∈ ps, p ≤ 100) →
        List.Chain' (· ≤ ·) (ps ++ [100])) ∧
    (∀ (ip : String) (s : Nat) (body : InstallStatusResp) (st : DriverState)
        (p : Nat), resOk s = true → body.progress = some p →
        (body.status = .started ∨ body.status = .in_progress ∨
          body.status = .error) →
        (pollTick ip (.reply s body) st).1.entry.progress = p) ∧
    (∀ (ip : String) (env : UploadEnv) (st : DriverState),
        uploadAccepted env.outcome = false →
        (uploadFirmware ip env st).1.entry.progress = 0) := by
  refine ⟨?_, ?_, ?_, ?_, ?_⟩
  · intro e env u hmem hstat
    exact runDevice_ops_subphaseZero e env u hmem hstat
  · intro ip env st h
    exact uploadFirmware_success_traceProgress ip env st h
  · intro ps hc hall
    rw [List.chain'_append]
    refine ⟨hc, by simp, ?_⟩
    intro x hx y hy
    simp only [List.head?_cons, Option.mem_def, Option.some.injEq] at hy
    subst hy
    exact hall x (List.mem_of_mem_getLast? hx)
  · intro ip s body st p hs hp hb
    exact pollTick_reported_progress ip s body st p hs hp hb
  · intro ip env st h
    exact (uploadFirmware_fail_status ip env st h).2

/-- Witness for C9 (amended) at concrete runs: the upload-phase progress
sequence for one 50 percent event, the installing-phase copy of a
reported value 30, and the reset to 0 on an HTTP 500 upload. -/
theorem c9_progress_amended_witness :
    ((uploadFirmware "10.0.0.1" { events := [(50, 100)], outcome := .loaded 200 "" }
        (DriverState.init wEntryA)).1.trace.drop
          (DriverState.init wEntryA).trace.length).map CameraEntry.progress =
      ([((50 : Nat), (100 : Nat))].map fun ev => uploadPct ev.1 ev.2) ++ [100] ∧
    (pollTick "10.0.0.1"
        (.reply 200 { status := .in_progress, progress := some 30 })
        (DriverState.init { wEntryA with status := .installing })).1.entry.progress =
      30 ∧
    (uploadFirmware "10.0.0.1" { events := [(40, 100)], outcome := .loaded 500 "oops" }
        (DriverState.init wEntryA)).1.entry.progress = 0 :=
  ⟨c9_progress_amended.2.1 "10.0.0.1"
      { events := [(50, 100)], outcome := .loaded 200 "" }
      (DriverState.init wEntryA) (by decide),
   c9_progress_amended.2.2.2.1 "10.0.0.1" 200
      { status := .in_progress, progress := some 30 }
      (DriverState.init { wEntryA with status := .installing }) 30
      (by decide) rfl (Or.inr (Or.inl rfl)),
   c9_progress_amended.2.2.2.2 "10.0.0.1"
      { events := [(40, 100)], outcome := .loaded 500 "oops" }
      (DriverState.init wEntryA) (by decide)⟩

/-! ### Last-trace-state lemmas: the final written state is the entry -/

lemma applyUploadEvents_lastTrace (evs : List (Nat × Nat)) :
    ∀ st : DriverState, st.trace.getLast? = some st.entry →
      (applyUploadEvents st evs).trace.getLast? =
        some (applyUploadEvents st evs).entry := by
  induction evs with
  | nil => intro st h; simpa [applyUploadEvents] using h
  | cons ev rest ih =>
      intro st h
      exact ih _ (pushUpdate_lastTrace st _)

lemma uploadFirmware_lastTrace (ip : String) (env : UploadEnv)
    (st : DriverState) :
    (uploadFirmware ip env st).1.trace.getLast? =
      some (uploadFirmware ip env st).1.entry := by
  cases ho : env.outcome with
  | loaded s txt =>
      by_cases hs : s = 200
      · subst hs
        simp only [uploadFirmware, ho, if_pos]
        exact pushUpdate_lastTrace _ _
      · simp only [uploadFirmware, ho, hs, if_false]
        exact pushUpdate_lastTrace _ _
  | netError => simp only [uploadFirmware, ho]; exact pushUpdate_lastTrace _ _
  | aborted => simp only [uploadFirmware, ho]; exact pushUpdate_lastTrace _ _
  | timedOut => simp only [uploadFirmware, ho]; exact pushUpdate_lastTrace _ _

lemma startCameraInstall_lastTrace (ip : String) (o : HttpOutcome)
    (txt : String) (st : DriverState) :
    (startCameraInstall ip o txt st).1.trace.getLast? =
      some (startCameraInstall ip o txt st).1.entry := by
  cases o with
  | response s =>
      by_cases hs : resOk s = true
      · simp only [startCameraInstall, hs, if_pos]
        exact pushUpdate_lastTrace _ _
      · simp only [Bool.not_eq_true] at hs
        simp only [startCameraInstall, hs, Bool.false_eq_true, if_false]
        exact pushUpdate_lastTrace _ _
  | timeout => simp only [startCameraInstall]; exact pushUpdate_lastTrace _ _
  | netError => simp only [startCameraInstall]; exact pushUpdate_lastTrace _ _

lemma pollTick_lastTrace (ip : String) (o : PollOutcome) (st : DriverState) :
    (pollTick ip o st).1.trace.getLast? = some (pollTick ip o st).1.entry := by
  cases o with
  | netError => simp only [pollTick]; exact pushUpdate_lastTrace _ _
  | reply s body =>
      by_cases hs : resOk s = true
      · cases hb : body.status <;>
          · simp only [pollTick, hs, hb, Bool.not_true, Bool.false_eq_true,
              if_false]
            exact pushUpdate_lastTrace _ _
      · simp only [Bool.not_eq_true] at hs
        simp only [pollTick, hs, Bool.not_false, if_true]
        exact pushUpdate_lastTrace _ _

lemma pollRun_lastTrace (ip : String) (outs : List PollOutcome) :
    ∀ st : DriverState, st.trace.getLast? = some st.entry →
      (pollRun ip outs st).trace.getLast? = some (pollRun ip outs st).entry := by
  induction outs with
  | nil => intro st h; simpa [pollRun] using h
  | cons o rest ih =>
      intro st h
      by_cases hp : pollableStatus st.entry.status = true
      · simp only [pollRun, hp, if_true]
        rcases hpt : pollTick ip o st with ⟨st1, stop⟩
        have h1 : st1.trace.getLast? = some st1.entry := by
          have := pollTick_lastTrace ip o st
          rw [hpt] at this
          exact this
        cases stop
        · exact ih st1 h1
        · exact h1
      · simp only [Bool.not_eq_true] at hp
        simp only [pollRun, hp, Bool.false_eq_true, if_false]
        by_cases hf : (st.entry.status == CameraUpdateStatus.update_failed) = true
        · rw [if_pos hf]
          exact pushUpdate_lastTrace _ _
        · simp only [Bool.not_eq_true] at hf
          rw [if_neg (by simp [hf])]
          exact h

lemma runDevice_lastTrace (e : CameraEntry) (env : DeviceEnv) :
    (runDevice e env).trace.getLast? = some (runDevice e env).entry := by
  by_cases hpre : precheckPasses env.preCheck = true
  · rw [runDevice_eq_fromUpload e env hpre]
    by_cases h2 : uploadAccepted env.upload.outcome = true
    · by_cases h3 : installAccepted env.install = true
      · rw [runDeviceFromUpload_eq_poll e.ip env _ h2 h3]
        exact pollRun_lastTrace e.ip env.polls _
          (by rw [installTriggerState]; exact startCameraInstall_lastTrace _ _ _ _)
      · simp only [Bool.not_eq_true] at h3
        rw [runDeviceFromUpload_eq_installFail e.ip env _ h2 h3,
          installTriggerState]
        exact startCameraInstall_lastTrace _ _ _ _
    · simp only [Bool.not_eq_true] at h2
      rw [runDeviceFromUpload_eq_fail e.ip env _ h2]
      exact uploadFirmware_lastTrace _ _ _
  · simp only [Bool.not_eq_true] at hpre
    cases hpc : env.preCheck with
    | response s =>
        rw [hpc] at hpre
        have h1 : resOk s = false := by
          by_contra hx
          simp only [Bool.not_eq_true] at hx
          simp [precheckPasses, hx] at hpre
        have h2 : s ≠ 404 := by
          intro hx
          simp [precheckPasses, hx] at hpre
        simp only [runDevice, hpc]
        rw [if_pos (by simp [h1, h2])]
        exact pushUpdate_lastTrace _ _
    | timeout =>
        simp only [runDevice, hpc]
        exact pushUpdate_lastTrace _ _
    | netError =>
        simp only [runDevice, hpc]
        exact pushUpdate_lastTrace _ _

/-! ### Batch-level lemmas -/

lemma processEntry_eligible (envOf : String → DeviceEnv) (e : CameraEntry)
    (h : eligibleEntry e = true) :
    processEntry envOf e = runDevice e (envOf e.id) := by
  simp [processEntry, h]

lemma processEntry_ineligible (envOf : String → DeviceEnv) (e : CameraEntry)
    (h : eligibleEntry e = false) :
    (processEntry envOf e).calls = [] ∧
    ∀ s ∈ (processEntry envOf e).trace, s.status = .pending_update := by
  by_cases hq : queueMark e = true
  · constructor
    · simp [processEntry, h, hq, DriverState.init]
    · intro s hs
      simp only [processEntry, h, Bool.false_eq_true, if_false, hq, if_true,
        pushUpdate_trace, DriverState.init, List.nil_append,
        List.mem_singleton] at hs
      subst hs
      simp [applyUpdates]
  · simp only [Bool.not_eq_true] at hq
    constructor
    · simp [processEntry, h, hq, DriverState.init]
    · intro s hs
      simp [processEntry, h, hq, DriverState.init] at hs

lemma batchTrace_grouping (entries : List CameraEntry)
    (envOf : String → DeviceEnv) :
    (batchTrace entries envOf).map Prod.fst =
      entries.flatMap fun e =>
        List.replicate ((processEntry envOf e).trace.length) e.id := by
  induction entries with
  | nil => simp [batchTrace]
  | cons e rest ih =>
      simp only [batchTrace, List.flatMap_cons, List.map_append] at ih ⊢
      rw [ih]
      congr 1
      rw [List.map_map]
      exact List.map_const' _ e.id

/-! ### C1 -/

/-- A device entry whose address is a single space: non-empty, but blank
after trimming. -/
def wSpaceEntry : CameraEntry :=
  { id := "cam-s", ip := " ", status := .connected, progress := 0, message := "" }

/-- C1 (counterexample).  A connected device whose address is the
non-empty string " " is excluded from the batch run: eligibility tests
`entry.ip.trim()`, so a whitespace-only address is ineligible although
the claim (non-empty address, status connected) calls it eligible; no
update step runs for it. -/
theorem c1_eligibility_trim_counterexample :
    wSpaceEntry.ip ≠ "" ∧ wSpaceEntry.status = .connected ∧
    eligibleEntry wSpaceEntry = false ∧
    (processEntry (fun _ => wEnvOk) wSpaceEntry).calls = [] := by
  refine ⟨by decide, rfl, by decide, by decide⟩

/-- C1 (amended).  A device is eligible exactly when its address is
non-empty after trimming whitespace and its status is one of connected,
idle, update_failed (failed from a previous run) or update_complete
(succeeded from a previous run).  Ineligible devices are excluded from
the run: no network call is made for them and at most they are re-marked
`pending_update`.  The update sequence runs for eligible devices one at
a time: the batch trace is the concatenation, in entry-list order, of
each device's own contiguous block of writes, and (whenever a device's
environment lets its run terminate: an early step fails or its poll
sequence reports a terminal status) a device's block ends with its
terminal state (`update_failed` or `update_complete`) before the next
device's block begins. -/
theorem c1_sequential_batch_amended (entries : List CameraEntry)
    (envOf : String → DeviceEnv)
    (hterm : ∀ e ∈ entries, eligibleEntry e = true →
      deviceRunTerminates (envOf e.id) = true) :
    (∀ e ∈ entries,
      (eligibleEntry e = true ↔
        (trimmedIp e.ip ≠ [] ∧
          (e.status = .connected ∨ e.status = .idle ∨
            e.status = .update_failed ∨ e.status = .update_complete)))) ∧
    (∀ e ∈ entries, eligibleEntry e = false →
      (processEntry envOf e).calls = [] ∧
      ∀ s ∈ (processEntry envOf e).trace, s.status = .pending_update) ∧
    ((batchTrace entries envOf).map Prod.fst =
      entries.flatMap fun e =>
        List.replicate ((processEntry envOf e).trace.length) e.id) ∧
    (∀ e ∈ entries, eligibleEntry e = true →
      ((processEntry envOf e).entry.status = .update_failed ∨
        (processEntry envOf e).entry.status = .update_complete) ∧
      (processEntry envOf e).trace.getLast? =
        some (processEntry envOf e).entry) := by
  refine ⟨?_, ?_, batchTrace_grouping entries envOf, ?_⟩
  · intro e _
    simp only [eligibleEntry, Bool.and_eq_true, Bool.or_eq_true, beq_iff_eq,
      Bool.not_eq_true', decide_eq_false_iff_not]
    constructor
    · rintro ⟨h1, h2⟩
      exact ⟨h1, by tauto⟩
    · rintro ⟨h1, h2⟩
      exact ⟨h1, by tauto⟩
  · intro e _ h
    exact processEntry_ineligible envOf e h
  · intro e he h
    rw [processEntry_eligible envOf e h]
    exact ⟨runDevice_terminates e (envOf e.id) (hterm e he h),
      runDevice_lastTrace e (envOf e.id)⟩

/-- Witness for C1 (amended) on the concrete batch [wEntryA, wSpaceEntry]
with a succeeding environment. -/
theorem c1_sequential_batch_amended_witness :
    ((batchTrace [wEntryA, wSpaceEntry] fun _ => wEnvOk).map Prod.fst =
      [wEntryA, wSpaceEntry].flatMap fun e =>
        List.replicate ((processEntry (fun _ => wEnvOk) e).trace.length) e.id) ∧
    ((processEntry (fun _ => wEnvOk) wEntryA).entry.status = .update_failed ∨
      (processEntry (fun _ => wEnvOk) wEntryA).entry.status = .update_complete) := by
  have h := c1_sequential_batch_amended [wEntryA, wSpaceEntry] (fun _ => wEnvOk)
    (by
      intro e he _
      simp only [List.mem_cons, List.not_mem_nil, or_false] at he
      rcases he with rfl | rfl <;> decide)
  exact ⟨h.2.2.1, (h.2.2.2 wEntryA (by simp) (by decide)).1⟩

/-! ### UI surface during a batch run (for the cancellation claim) -/

/-- The `AppStep` union type of the source. -/
inductive AppStep where
  | configure_ips
  | ips_checked
  | batch_updating
  | batch_complete
deriving DecidableEq, Repr

/-- The operations a footer button can invoke (`onClick` handlers of
`renderFooter`); the spinner button shown during `batch_updating` has no
handler at all. -/
inductive UiAction where
  | checkAllConnections
  | startAllUpdates
  | backToConfigure
  | startNewBatchClear
  | resetStatusesOnly
  | inProgressIndicator
deriving DecidableEq, Repr

/-- One footer button: its action and whether it is enabled. -/
structure FooterButton where
  action : UiAction
  enabled : Bool
deriving DecidableEq, Repr

/-- `renderFooter()` (source part_000 lines 355-394) as a function of the
app step and the boolean inputs of the `disabled` expressions: whether
any ip field is non-blank, whether a batch is processing, whether
`canStartBatchUpdate` holds, and whether a firmware file is selected. -/
def renderFooterButtons (step : AppStep) (anyIp processing canStart hasFile :
    Bool) : List FooterButton :=
  match step with
  | .configure_ips => [⟨.checkAllConnections, anyIp && !processing⟩]
  | .ips_checked =>
      [⟨.startAllUpdates, canStart && !processing⟩, ⟨.backToConfigure, true⟩]
  | .batch_updating => [⟨.inProgressIndicator, false⟩]
  | .batch_complete =>
      [⟨.startAllUpdates, hasFile && !processing⟩,
       ⟨.startNewBatchClear, true⟩, ⟨.resetStatusesOnly, true⟩]

/-- The ip inputs, the remove buttons, the add-camera button and the
firmware file input all carry `disabled={appStep === 'batch_updating'}`
in the source. -/
def nonFooterControlsDisabled (step : AppStep) : Bool :=
  step == .batch_updating

/-! ### C3 -/

/-- C3 (counterexample).  During `batch_updating` the footer is a single
disabled spinner button and every other control is disabled: the
component exposes no operation at all while a batch runs, so no
cancelBatch operation exists; nothing can make an in-flight device
finish with reason "cancelled". -/
theorem c3_no_cancel_counterexample :
    (renderFooterButtons .batch_updating true false true true).map
        FooterButton.enabled = [false] ∧
    (renderFooterButtons .batch_updating true false true true).map
        FooterButton.action = [.inProgressIndicator] ∧
    nonFooterControlsDisabled .batch_updating = true := by
  refine ⟨rfl, rfl, rfl⟩

/-- C3 (amended).  There is no cancelBatch operation: for every
combination of UI inputs, every footer button rendered during
`batch_updating` is disabled and all other controls are disabled, so a
running batch cannot be cancelled.  The poll loop of the in-flight device
stops only on a device-reported terminal status; its only other exit is
the guard at the top of each tick, which ends the loop with no further
network call and no status change as soon as the device's record is no
longer in a pollable status. -/
theorem c3_no_cancel_amended :
    (∀ (anyIp processing canStart hasFile : Bool),
      ∀ btn ∈ renderFooterButtons .batch_updating anyIp processing canStart
        hasFile, btn.enabled = false) ∧
    nonFooterControlsDisabled .batch_updating = true ∧
    (∀ (ip : String) (outs : List PollOutcome) (st : DriverState),
      pollableStatus st.entry.status = false →
      (pollRun ip outs st).calls = st.calls ∧
      (pollRun ip outs st).entry.status = st.entry.status) ∧
    (∀ (ip : String) (outs : List PollOutcome) (st : DriverState),
      st.entry.status = .installing →
      (∀ o ∈ outs, terminalPoll o = false) →
      (pollRun ip outs st).entry.status = .installing) := by
  refine ⟨?_, rfl, ?_, ?_⟩
  · intro anyIp processing canStart hasFile btn hb
    simp only [renderFooterButtons, List.mem_singleton] at hb
    subst hb
    rfl
  · intro ip outs st h
    exact pollRun_not_pollable ip outs st h
  · intro ip outs st h hall
    exact pollRun_transient ip outs st h hall

/-- Witness for C3 (amended): the concrete spinner button is disabled,
and a poll loop whose entry was already terminal stops with no further
network call. -/
theorem c3_no_cancel_amended_witness :
    (∀ btn ∈ renderFooterButtons .batch_updating true false true true,
      btn.enabled = false) ∧
    (pollRun "10.0.0.1" [.reply 200 { status := .finished }]
        (DriverState.init { wEntryA with status := .update_failed })).calls =
      (DriverState.init { wEntryA with status := .update_failed }).calls :=
  ⟨c3_no_cancel_amended.1 true false true true,
   (c3_no_cancel_amended.2.2.1 "10.0.0.1" [.reply 200 { status := .finished }]
      (DriverState.init { wEntryA with status := .update_failed })
      (by decide)).1⟩

/-! ### Bridge: replaying the issued patches through `updateCameraEntry`

The driver functions only ever touch the store through `pushUpdate`
(an `updateCameraEntry` call whose patch never names the `id` field) and
`addCall`.  `DriverExt` captures exactly that, and the bridge theorem
shows that replaying the whole batch's patch sequence through
`updateCameraEntry` on the shared entry list gives the per-entry model
`runBatch`, provided the entry ids are distinct (they are fresh UUIDs in
the source). -/

/-- `st'` is reachable from `st` by pushes of id-less patches and call
records only. -/
inductive DriverExt : DriverState → DriverState → Prop where
  | refl (st : DriverState) : DriverExt st st
  | push {st st' : DriverState} (u : EntryUpdates) (h : DriverExt st st')
      (hid : u.id = none) : DriverExt st (pushUpdate st' u)
  | call {st st' : DriverState} (c : NetworkCall) (h : DriverExt st st') :
      DriverExt st (addCall st' c)

lemma DriverExt.trans {a b c : DriverState} (h1 : DriverExt a b)
    (h2 : DriverExt b c) : DriverExt a c := by
  induction h2 with
  | refl => exact h1
  | push u _ hid ih => exact DriverExt.push u ih hid
  | call cc _ ih => exact DriverExt.call cc ih

lemma ext_applyUploadEvents (evs : List (Nat × Nat)) :
    ∀ st : DriverState, DriverExt st (applyUploadEvents st evs) := by
  induction evs with
  | nil => intro st; exact DriverExt.refl st
  | cons ev rest ih =>
      intro st
      exact DriverExt.trans
        (DriverExt.push _ (DriverExt.refl st) rfl) (ih _)

lemma ext_uploadFirmware (ip : String) (env : UploadEnv) (st : DriverState) :
    DriverExt st (uploadFirmware ip env st).1 := by
  have hbase : DriverExt st
      (applyUploadEvents (addCall st (.postUpload ip)) env.events) :=
    DriverExt.trans (DriverExt.call _ (DriverExt.refl st))
      (ext_applyUploadEvents env.events _)
  cases ho : env.outcome with
  | loaded s txt =>
      by_cases hs : s = 200
      · subst hs
        simp only [uploadFirmware, ho, if_pos]
        exact DriverExt.push _ hbase rfl
      · simp only [uploadFirmware, ho, hs, if_false]
        exact DriverExt.push _ hbase rfl
  | netError =>
      simp only [uploadFirmware, ho]
      exact DriverExt.push _ hbase rfl
  | aborted =>
      simp only [uploadFirmware, ho]
      exact DriverExt.push _ hbase rfl
  | timedOut =>
      simp only [uploadFirmware, ho]
      exact DriverExt.push _ hbase rfl

lemma ext_startCameraInstall (ip : String) (o : HttpOutcome) (txt : String)
    (st : DriverState) : DriverExt st (startCameraInstall ip o txt st).1 := by
  have hbase : DriverExt st (addCall st (.postStart ip)) :=
    DriverExt.call _ (DriverExt.refl st)
  cases o with
  | response s =>
      by_cases hs : resOk s = true
      · simp only [startCameraInstall, hs, if_pos]
        exact DriverExt.push _ hbase rfl
      · simp only [Bool.not_eq_true] at hs
        simp only [startCameraInstall, hs, Bool.false_eq_true, if_false]
        exact DriverExt.push _ hbase rfl
  | timeout =>
      simp only [startCameraInstall]
      exact DriverExt.push _ hbase rfl
  | netError =>
      simp only [startCameraInstall]
      exact DriverExt.push _ hbase rfl

lemma ext_pollTick (ip : String) (o : PollOutcome) (st : DriverState) :
    DriverExt st (pollTick ip o st).1 := by
  have hbase : DriverExt st (addCall st (.getStatus ip)) :=
    DriverExt.call _ (DriverExt.refl st)
  cases o with
  | netError =>
      simp only [pollTick]
      exact DriverExt.push _ hbase rfl
  | reply s body =>
      by_cases hs : resOk s = true
      · cases hb : body.status <;>
          · simp only [pollTick, hs, hb, Bool.not_true, Bool.false_eq_true,
              if_false]
            first
              | exact DriverExt.push _ (DriverExt.push _ hbase rfl) rfl
              | exact DriverExt.push _ hbase rfl
      · simp only [Bool.not_eq_true] at hs
        simp only [pollTick, hs, Bool.not_false, if_true]
        exact DriverExt.push _ hbase rfl

lemma ext_pollRun (ip : String) (outs : List PollOutcome) :
    ∀ st : DriverState, DriverExt st (pollRun ip outs st) := by
  induction outs with
  | nil => intro st; exact DriverExt.refl st
  | cons o rest ih =>
      intro st
      by_cases hp : pollableStatus st.entry.status = true
      · simp only [pollRun, hp, if_true]
        rcases hpt : pollTick ip o st with ⟨st1, stop⟩
        have h1 : DriverExt st st1 := by
          have := ext_pollTick ip o st
          rw [hpt] at this
          exact this
        cases stop
        · exact DriverExt.trans h1 (ih st1)
        · exact h1
      · simp only [Bool.not_eq_true] at hp
        simp only [pollRun, hp, Bool.false_eq_true, if_false]
        by_cases hf : (st.entry.status == CameraUpdateStatus.update_failed) = true
        · rw [if_pos hf]
          exact DriverExt.push _ (DriverExt.refl st) rfl
        · simp only [Bool.not_eq_true] at hf
          rw [if_neg (by simp [hf])]
          exact DriverExt.refl st

lemma ext_runDevice (e : CameraEntry) (env : DeviceEnv) :
    DriverExt (DriverState.init e) (runDevice e env) := by
  have hpc : DriverExt (DriverState.init e) (precheckedState e) :=
    DriverExt.call _ (DriverExt.push _ (DriverExt.refl _) rfl)
  by_cases hpre : precheckPasses env.preCheck = true
  · rw [runDevice_eq_fromUpload e env hpre]
    have hupl : DriverExt (DriverState.init e)
        (uploadFirmware e.ip env.upload (uploadingState (precheckedState e))).1 :=
      DriverExt.trans (DriverExt.push _ hpc rfl)
        (ext_uploadFirmware e.ip env.upload _)
    have hins : DriverExt (DriverState.init e)
        (installTriggerState e.ip env (precheckedState e)) := by
      rw [installTriggerState]
      exact DriverExt.trans (DriverExt.push _ hupl rfl)
        (ext_startCameraInstall _ _ _ _)
    by_cases h2 : uploadAccepted env.upload.outcome = true
    · by_cases h3 : installAccepted env.install = true
      · rw [runDeviceFromUpload_eq_poll e.ip env _ h2 h3]
        exact DriverExt.trans hins (ext_pollRun e.ip env.polls _)
      · simp only [Bool.not_eq_true] at h3
        rw [runDeviceFromUpload_eq_installFail e.ip env _ h2 h3]
        exact hins
    · simp only [Bool.not_eq_true] at h2
      rw [runDeviceFromUpload_eq_fail e.ip env _ h2]
      exact hupl
  · simp only [Bool.not_eq_true] at hpre
    cases hpcc : env.preCheck with
    | response s =>
        rw [hpcc] at hpre
        have h1 : resOk s = false := by
          by_contra hx
          simp only [Bool.not_eq_true] at hx
          simp [precheckPasses, hx] at hpre
        have h2 : s ≠ 404 := by
          intro hx
          simp [precheckPasses, hx] at hpre
        simp only [runDevice, hpcc]
        rw [if_pos (by simp [h1, h2])]
        exact DriverExt.push _ hpc rfl
    | timeout =>
        simp only [runDevice, hpcc]
        exact DriverExt.push _ hpc rfl
    | netError =>
        simp only [runDevice, hpcc]
        exact DriverExt.push _ hpc rfl

lemma DriverExt_opsFold {st st' : DriverState} (e0 : CameraEntry)
    (h : DriverExt st st') (hbase : st.entry = st.ops.foldl applyUpdates e0) :
    st'.entry = st'.ops.foldl applyUpdates e0 := by
  induction h with
  | refl => exact hbase
  | push u _ _ ih =>
      simp only [pushUpdate_entry, pushUpdate_ops]
      rw [List.foldl_append, List.foldl_cons, List.foldl_nil, ih]
  | call c _ ih => simpa using ih

lemma DriverExt_ops_id {st st' : DriverState} (h : DriverExt st st')
    (hbase : ∀ u ∈ st.ops, u.id = none) : ∀ u ∈ st'.ops, u.id = none := by
  induction h with
  | refl => exact hbase
  | push u _ hid ih =>
      intro u2 h2
      simp only [pushUpdate_ops, List.mem_append, List.mem_singleton] at h2
      rcases h2 with h2 | h2
      · exact ih u2 h2
      · subst h2; exact hid
  | call c _ ih => intro u2 h2; exact ih u2 (by simpa using h2)

lemma runDevice_entry_foldl (e : CameraEntry) (env : DeviceEnv) :
    (runDevice e env).entry = (runDevice e env).ops.foldl applyUpdates e :=
  DriverExt_opsFold e (ext_runDevice e env) rfl

lemma runDevice_ops_id (e : CameraEntry) (env : DeviceEnv) :
    ∀ u ∈ (runDevice e env).ops, u.id = none :=
  DriverExt_ops_id (ext_runDevice e env) (by intro u h; simp [DriverState.init] at h)

lemma processEntry_entry_foldl (envOf : String → DeviceEnv) (e : CameraEntry) :
    (processEntry envOf e).entry =
      (processEntry envOf e).ops.foldl applyUpdates e := by
  by_cases h : eligibleEntry e = true
  · rw [processEntry_eligible envOf e h]
    exact runDevice_entry_foldl e (envOf e.id)
  · simp only [Bool.not_eq_true] at h
    by_cases hq : queueMark e = true
    · simp [processEntry, h, hq, DriverState.init]
    · simp only [Bool.not_eq_true] at hq
      simp [processEntry, h, hq, DriverState.init]

lemma processEntry_ops_id (envOf : String → DeviceEnv) (e : CameraEntry) :
    ∀ u ∈ (processEntry envOf e).ops, u.id = none := by
  by_cases h : eligibleEntry e = true
  · rw [processEntry_eligible envOf e h]
    exact runDevice_ops_id e (envOf e.id)
  · simp only [Bool.not_eq_true] at h
    intro u hu
    by_cases hq : queueMark e = true
    · simp only [processEntry, h, Bool.false_eq_true, if_false, hq, if_true,
        pushUpdate_ops, DriverState.init, List.nil_append,
        List.mem_singleton] at hu
      subst hu
      rfl
    · simp only [Bool.not_eq_true] at hq
      simp [processEntry, h, hq, DriverState.init] at hu

lemma foldl_applyUpdates_id (ops : List EntryUpdates) :
    ∀ x : CameraEntry, (∀ u ∈ ops, u.id = none) →
      (ops.foldl applyUpdates x).id = x.id := by
  induction ops with
  | nil => intro x _; rfl
  | cons u rest ih =>
      intro x h
      rw [List.foldl_cons]
      rw [ih _ fun u2 h2 => h u2 (by simp [h2])]
      have : u.id = none := h u (by simp)
      simp [applyUpdates, this]

lemma processEntry_entry_id (envOf : String → DeviceEnv) (e : CameraEntry) :
    (processEntry envOf e).entry.id = e.id := by
  rw [processEntry_entry_foldl envOf e]
  exact foldl_applyUpdates_id _ e (processEntry_ops_id envOf e)

/-- What a single entry becomes when a patch sequence is replayed over
the shared list: each `updateCameraEntry` touches it only when the ids
match. -/
def replayEntry (ops : List (String × EntryUpdates)) (x : CameraEntry) :
    CameraEntry :=
  ops.foldl (fun y p => if y.id = p.1 then applyUpdates y p.2 else y) x

lemma applyOps_map (ops : List (String × EntryUpdates)) :
    ∀ l : List CameraEntry, applyOps l ops = l.map (replayEntry ops) := by
  induction ops with
  | nil =>
      intro l
      simp only [applyOps, List.foldl_nil]
      exact (List.map_id' l).symm
  | cons p rest ih =>
      intro l
      simp only [applyOps, List.foldl_cons] at ih ⊢
      rw [ih (updateCameraEntry l p.1 p.2)]
      simp only [updateCameraEntry, List.map_map]
      rfl

lemma replayEntry_append (a b : List (String × EntryUpdates))
    (x : CameraEntry) :
    replayEntry (a ++ b) x = replayEntry b (replayEntry a x) := by
  simp [replayEntry, List.foldl_append]

lemma replayEntry_other (ops : List (String × EntryUpdates)) :
    ∀ x : CameraEntry, (∀ p ∈ ops, x.id ≠ p.1) → replayEntry ops x = x := by
  induction ops with
  | nil => intro x _; rfl
  | cons p rest ih =>
      intro x h
      simp only [replayEntry, List.foldl_cons]
      rw [if_neg (h p (by simp))]
      exact ih x fun p2 h2 => h p2 (by simp [h2])

lemma replayEntry_own (tid : String) (ops : List EntryUpdates) :
    ∀ x : CameraEntry, x.id = tid → (∀ u ∈ ops, u.id = none) →
      replayEntry (ops.map (Prod.mk tid)) x = ops.foldl applyUpdates x := by
  induction ops with
  | nil => intro x _ _; rfl
  | cons u rest ih =>
      intro x hx h
      simp only [replayEntry, List.map_cons, List.foldl_cons]
      rw [if_pos hx]
      have hid : (applyUpdates x u).id = tid := by
        have : u.id = none := h u (by simp)
        simp [applyUpdates, this, hx]
      exact ih (applyUpdates x u) hid fun u2 h2 => h u2 (by simp [h2])

lemma batchOps_targets (entries : List CameraEntry)
    (envOf : String → DeviceEnv) :
    ∀ p ∈ batchOps entries envOf, ∃ e ∈ entries, p.1 = e.id := by
  intro p hp
  simp only [batchOps, List.mem_flatMap] at hp
  rcases hp with ⟨e, he, hp⟩
  rcases List.mem_map.1 hp with ⟨u, _, rfl⟩
  exact ⟨e, he, rfl⟩

/-- Bridge theorem: replaying the full ordered sequence of
`updateCameraEntry` calls issued by the batch over the shared entry list
yields exactly the per-entry model `runBatch`, provided the entry ids
are distinct (they are fresh UUIDs in the source). -/
theorem applyOps_batchOps (entries : List CameraEntry)
    (envOf : String → DeviceEnv)
    (hnodup : (entries.map CameraEntry.id).Nodup) :
    applyOps entries (batchOps entries envOf) = runBatch entries envOf := by
  induction entries with
  | nil => rfl
  | cons e rest ih =>
      simp only [List.map_cons, List.nodup_cons] at hnodup
      rcases hnodup with ⟨hnotin, hnodup⟩
      have hne : ∀ e2 ∈ rest, e2.id ≠ e.id := by
        intro e2 h2 hx
        exact hnotin (hx ▸ List.mem_map_of_mem CameraEntry.id h2)
      simp only [batchOps, List.flatMap_cons]
      rw [show (rest.flatMap fun e2 =>
          (processEntry envOf e2).ops.map (Prod.mk e2.id)) =
        batchOps rest envOf from rfl]
      rw [applyOps_map, List.map_cons]
      have hhead : replayEntry
          (((processEntry envOf e).ops.map (Prod.mk e.id)) ++
            batchOps rest envOf) e = (processEntry envOf e).entry := by
        rw [replayEntry_append]
        rw [replayEntry_own e.id _ e rfl (processEntry_ops_id envOf e)]
        rw [← processEntry_entry_foldl envOf e]
        apply replayEntry_other
        intro p hp
        rcases batchOps_targets rest envOf p hp with ⟨e2, he2, hpe⟩
        rw [processEntry_entry_id envOf e, hpe]
        exact fun hx => hne e2 he2 hx.symm
      have htail : ∀ x ∈ rest,
          replayEntry (((processEntry envOf e).ops.map (Prod.mk e.id)) ++
            batchOps rest envOf) x = replayEntry (batchOps rest envOf) x := by
        intro x hx
        rw [replayEntry_append]
        rw [replayEntry_other _ x ?_]
        intro p hp
        rcases List.mem_map.1 hp with ⟨u, _, rfl⟩
        exact hne x hx
      rw [hhead]
      have : rest.map (replayEntry
          (((processEntry envOf e).ops.map (Prod.mk e.id)) ++
            batchOps rest envOf)) =
          rest.map (replayEntry (batchOps rest envOf)) :=
        List.map_congr_left htail
      rw [this, ← applyOps_map, ih hnodup]
      rfl

end CamUpdate
